/-
Verification of the Autisense real-time behavioral feature extraction engine
(`ml-service/services/features/`).

Shallow embedding conventions:
* Python floats are modelled as exact rationals (`ℚ`); Python float literals
  such as `0.033` are the corresponding decimal rationals (`33/1000`).
* External sensor outputs (MediaPipe landmarks, Haar cascade face boxes, the
  DeepFace HTTP collaborator) are abstracted to the scalar observations each
  detector actually reads from them; all arithmetic and control flow performed
  by the repository's own code on those scalars is embedded faithfully.
* `np.linalg.norm` on 2-D vectors and `np.log2` are irrational-valued
  primitives; they are passed in as explicit function parameters
  (`norm : ℚ × ℚ → ℚ`, `log2 : ℚ → ℚ`) so that every definition stays
  executable and every theorem quantifies over the primitive.
* Python `round(x, n)` is modelled as decimal round-half-to-even.
* Mutation is modelled by explicit state passing: each `extract` returns the
  updated detector state together with the per-frame result dictionary.
-/
import Mathlib

namespace Autisense

/-- Python `round` to an integer: round half to even (banker's rounding). -/
def roundHalfEven (q : ℚ) : ℤ :=
  let f := ⌊q⌋
  let r := q - (f : ℚ)
  if r < 1/2 then f
  else if 1/2 < r then f + 1
  else if f % 2 = 0 then f else f + 1

/-- Python `round(x, digits)` on a decimal model. -/
def pyRound (digits : ℕ) (q : ℚ) : ℚ :=
  (roundHalfEven (q * (10 : ℚ) ^ digits) : ℚ) / (10 : ℚ) ^ digits

/-- Maximum of a list of rationals (`np.max`); 0 on the empty list, which the
source never evaluates (guarded by length checks). -/
def listMax : List ℚ → ℚ
  | [] => 0
  | x :: xs => xs.foldl max x

/-- Minimum of a list of rationals (`np.min`). -/
def listMin : List ℚ → ℚ
  | [] => 0
  | x :: xs => xs.foldl min x

/-- Last element of a list (`values[-1]`); 0 on the empty list (never hit). -/
def listLast : List ℚ → ℚ
  | [] => 0
  | [x] => x
  | _ :: x :: xs => listLast (x :: xs)

/-- `np.diff`: consecutive differences `l[i+1] - l[i]`. -/
def listDiffs (l : List ℚ) : List ℚ :=
  List.zipWith (fun a b => a - b) l.tail l

/-- `np.sign` restricted to the values the oscillation counters need. -/
def qsign (q : ℚ) : ℤ :=
  if q > 0 then 1 else if q < 0 then -1 else 0

/-- Sum of retained eye-contact segment durations: `sum(end - start ...)`. -/
def segmentDurationSum (segs : List (ℚ × ℚ)) : ℚ :=
  (segs.map (fun p => p.2 - p.1)).sum

-- ===================================================================
-- EyeContactFeature  (eye_contact_feature.py)
-- ===================================================================

namespace EyeContact

def EYE_OPEN_THRESHOLD : ℚ := 20/100
def NOSE_CENTER_THRESHOLD : ℚ := 35/100
def GAZE_CENTER_THRESHOLD : ℚ := 15/100
def warmup_duration : ℚ := 2
def MIN_EYE_CONTACT_DURATION : ℚ := 1

/-- The per-frame scalars `EyeContactFeature.extract` derives from the face
mesh before its threshold logic: the two EAR values, the pixel x-coordinates
of the two eye midpoints and of the nose, and the two gaze ratios. -/
structure FaceObs where
  left_ear : ℚ
  right_ear : ℚ
  left_eye_x : ℚ
  right_eye_x : ℚ
  nose_x : ℚ
  gaze_left : ℚ
  gaze_right : ℚ
  deriving Repr, DecidableEq

/-- Lines 117-144: eyes-open AND head-centered AND gaze-centered. -/
def looking (o : FaceObs) : Bool :=
  let eyes_open := decide ((o.left_ear + o.right_ear) / 2 > EYE_OPEN_THRESHOLD)
  let eye_mid_x := (o.left_eye_x + o.right_eye_x) / 2
  let eye_width := |o.right_eye_x - o.left_eye_x|
  let head_centered :=
    decide (|o.nose_x - eye_mid_x| / max eye_width (1/1000) < NOSE_CENTER_THRESHOLD)
  let gaze_centered :=
    decide (|o.gaze_left - 1/2| < GAZE_CENTER_THRESHOLD) &&
    decide (|o.gaze_right - 1/2| < GAZE_CENTER_THRESHOLD)
  eyes_open && head_centered && gaze_centered

structure State where
  session_start_time : Option ℚ
  total_frames : ℕ
  face_detected_count : ℕ
  current_contact_start : Option ℚ
  eye_contact_segments : List (ℚ × ℚ)
  deriving Repr, DecidableEq

def initState : State :=
  { session_start_time := none
    total_frames := 0
    face_detected_count := 0
    current_contact_start := none
    eye_contact_segments := [] }

/-- Per-frame result dictionary of `EyeContactFeature.extract`. -/
structure FrameRes where
  detected : Bool
  warmup : Bool
  deriving Repr, DecidableEq

/-- `EyeContactFeature._end_eye_contact`. -/
def endEyeContact (s : State) (timestamp : ℚ) : State :=
  match s.current_contact_start with
  | none => s
  | some start =>
    let duration := timestamp - start
    if duration ≥ MIN_EYE_CONTACT_DURATION then
      { s with
        eye_contact_segments := s.eye_contact_segments ++ [(start, timestamp)]
        current_contact_start := none }
    else
      { s with current_contact_start := none }

/-- `EyeContactFeature.extract`; the frame observation is `none` when the face
mesh reports no face, otherwise the derived scalars. -/
def extract (s : State) (timestamp : ℚ) (obs : Option FaceObs) : State × FrameRes :=
  let start := s.session_start_time.getD timestamp
  let s := { s with session_start_time := some start, total_frames := s.total_frames + 1 }
  let elapsed := timestamp - start
  match obs with
  | none =>
    (endEyeContact s timestamp, { detected := false, warmup := elapsed < warmup_duration })
  | some o =>
    let s := { s with face_detected_count := s.face_detected_count + 1 }
    let s :=
      if elapsed ≥ warmup_duration then
        if looking o then
          match s.current_contact_start with
          | none => { s with current_contact_start := some timestamp }
          | some _ => s
        else endEyeContact s timestamp
      else s
    (s, { detected := true, warmup := elapsed < warmup_duration })

/-- Summary dictionary of `EyeContactFeature.get_summary`. -/
structure Summary where
  eye_contact_ratio : ℚ
  level : String
  interpretation : String
  face_detection_ratio : ℚ
  deriving Repr, DecidableEq

/-- `EyeContactFeature.get_summary`.  Mutates the state (closes any open dwell
segment with the segment's own start time as the end timestamp), so it returns
the updated state alongside the summary.  The dead local `total_duration`
(lines 174-176) is not modelled. -/
def getSummary (s : State) : Summary × State :=
  let s :=
    match s.current_contact_start with
    | some c => endEyeContact s c
    | none => s
  let face_ratio := (s.face_detected_count : ℚ) / max (s.total_frames : ℚ) 1
  let eye_contact_time := segmentDurationSum s.eye_contact_segments
  let session_time := max ((s.total_frames : ℚ) * (33/1000)) 1
  let ratio := eye_contact_time / session_time
  let (level, interpretation) :=
    if ratio < 50/100 then ("low", "Reduced eye contact (autism indicator)")
    else if ratio < 70/100 then ("moderate", "Moderate eye contact - borderline")
    else ("high", "Good eye contact")
  ({ eye_contact_ratio := pyRound 3 ratio
     level := level
     interpretation := interpretation
     face_detection_ratio := pyRound 3 face_ratio }, s)

/-- `EyeContactFeature.reset`. -/
def reset (_s : State) : State := initState

/-- Fold `extract` over a list of timestamped observations. -/
def run (s : State) (frames : List (ℚ × Option FaceObs)) : State :=
  frames.foldl (fun st f => (extract st f.1 f.2).1) s

end EyeContact

-- ===================================================================
-- BlinkRateFeature  (blink_rate_feature.py)
-- ===================================================================

namespace Blink

def EYE_CLOSED_EAR : ℚ := 16/100
def EYE_OPEN_EAR : ℚ := 21/100
def MIN_BLINK_DURATION : ℚ := 6/100
def MAX_BLINK_DURATION : ℚ := 40/100
def warmup_duration : ℚ := 2

structure State where
  session_start_time : Option ℚ
  eye_closed : Bool
  blink_start_time : Option ℚ
  blink_timestamps : List ℚ
  face_detected_frames : ℕ
  total_frames : ℕ
  deriving Repr, DecidableEq

def initState : State :=
  { session_start_time := none
    eye_closed := false
    blink_start_time := none
    blink_timestamps := []
    face_detected_frames := 0
    total_frames := 0 }

structure FrameRes where
  detected : Bool
  warmup : Bool
  deriving Repr, DecidableEq

/-- `BlinkRateFeature.extract`; the observation is `none` when the face mesh
finds no face, otherwise the pair of per-eye EAR values (`left_ear`,
`right_ear`) derived from the landmarks. -/
def extract (s : State) (timestamp : ℚ) (obs : Option (ℚ × ℚ)) : State × FrameRes :=
  let start := s.session_start_time.getD timestamp
  let s := { s with session_start_time := some start, total_frames := s.total_frames + 1 }
  let elapsed := timestamp - start
  match obs with
  | none => (s, { detected := false, warmup := elapsed < warmup_duration })
  | some ears =>
    let s := { s with face_detected_frames := s.face_detected_frames + 1 }
    let avg_ear := (ears.1 + ears.2) / 2
    if elapsed < warmup_duration then
      (s, { detected := true, warmup := true })
    else
      let s :=
        if avg_ear < EYE_CLOSED_EAR then
          if !s.eye_closed then
            { s with eye_closed := true, blink_start_time := some timestamp }
          else s
        else if s.eye_closed ∧ avg_ear > EYE_OPEN_EAR then
          let s :=
            match s.blink_start_time with
            | some t0 =>
              let duration := timestamp - t0
              if MIN_BLINK_DURATION ≤ duration ∧ duration ≤ MAX_BLINK_DURATION then
                { s with blink_timestamps := s.blink_timestamps ++ [timestamp] }
              else s
            | none => s
          { s with eye_closed := false, blink_start_time := none }
        else s
      (s, { detected := true, warmup := false })

structure Summary where
  blink_rate_per_minute : ℚ
  level : String
  interpretation : String
  total_blinks : ℕ
  deriving Repr, DecidableEq

/-- `BlinkRateFeature.get_summary` (the keys the orchestrator reads, plus the
blink count; the branch-specific `data_quality` strings are not modelled). -/
def getSummary (s : State) (session_duration_seconds : ℚ) : Summary :=
  if session_duration_seconds ≤ warmup_duration then
    { blink_rate_per_minute := 0
      level := "insufficient_data"
      interpretation := "Session too short"
      total_blinks := 0 }
  else
    let effective_duration := session_duration_seconds - warmup_duration
    let face_ratio := (s.face_detected_frames : ℚ) / max (s.total_frames : ℚ) 1
    if face_ratio < 1/2 then
      { blink_rate_per_minute := 0
        level := "insufficient_data"
        interpretation := "Face not consistently detected"
        total_blinks := s.blink_timestamps.length }
    else
      let total_blinks := s.blink_timestamps.length
      let blink_rate := (total_blinks : ℚ) / effective_duration * 60
      let blink_rate := min (max blink_rate 0) 60
      let (level, interpretation) :=
        if blink_rate < 5 then ("low", "Reduced spontaneous blinking")
        else if blink_rate ≤ 25 then ("normal", "Normal blink rate")
        else ("high", "Elevated blink rate")
      { blink_rate_per_minute := pyRound 2 blink_rate
        level := level
        interpretation := interpretation
        total_blinks := total_blinks }

def reset (_s : State) : State := initState

def run (s : State) (frames : List (ℚ × Option (ℚ × ℚ))) : State :=
  frames.foldl (fun st f => (extract st f.1 f.2).1) s

end Blink

-- ===================================================================
-- HeadMovementFeature  (head_movement_feature.py)
-- ===================================================================

namespace HeadMove

def warmup_duration : ℚ := 10

/-- Observation derived from the face mesh: normalized nose-tip and
nose-bridge positions. -/
structure Obs where
  nose_tip : ℚ × ℚ
  nose_bridge : ℚ × ℚ
  deriving Repr, DecidableEq

structure State where
  head_pose_history : List (ℚ × (ℚ × ℚ) × (ℚ × ℚ))
  session_start_time : Option ℚ
  deriving Repr, DecidableEq

def initState : State := { head_pose_history := [], session_start_time := none }

structure FrameRes where
  detected : Bool
  position : Option (ℚ × ℚ)
  orientation : Option (ℚ × ℚ)
  warmup : Bool
  deriving Repr, DecidableEq

/-- `HeadMovementFeature.extract`. -/
def extract (s : State) (timestamp : ℚ) (obs : Option Obs) : State × FrameRes :=
  let start := s.session_start_time.getD timestamp
  let s := { s with session_start_time := some start }
  let elapsed := timestamp - start
  match obs with
  | none => (s, { detected := false, position := none, orientation := none,
                  warmup := elapsed < warmup_duration })
  | some o =>
    let orientation := (o.nose_tip.1 - o.nose_bridge.1, o.nose_tip.2 - o.nose_bridge.2)
    let s :=
      if elapsed ≥ warmup_duration then
        { s with head_pose_history := s.head_pose_history ++ [(timestamp, o.nose_tip, orientation)] }
      else s
    (s, { detected := true, position := some o.nose_tip, orientation := some orientation,
          warmup := elapsed < warmup_duration })

/-- Summary dictionary; the insufficient-data branch omits the `level`,
`avg_movement_per_frame` and `total_movement` keys, modelled as `none`
(orchestrator reads them with `dict.get` defaults). -/
structure Summary where
  head_movement_level : String
  level : Option String
  interpretation : String
  total_movement : Option ℚ
  avg_movement_per_frame : Option ℚ
  total_frames : ℕ
  deriving Repr, DecidableEq

/-- `HeadMovementFeature.get_summary`; `norm` abstracts `np.linalg.norm` on
2-D difference vectors. -/
def getSummary (norm : ℚ × ℚ → ℚ) (s : State) : Summary :=
  if s.head_pose_history.length < 2 then
    { head_movement_level := "insufficient_data"
      level := none
      interpretation := "Insufficient data"
      total_movement := none
      avg_movement_per_frame := none
      total_frames := s.head_pose_history.length }
  else
    let positions := s.head_pose_history.map (fun p => p.2.1)
    let movements :=
      (List.zipWith (fun (a b : ℚ × ℚ) => (a.1 - b.1, a.2 - b.2)) positions.tail positions).map norm
    let total_movement := movements.sum
    let avg := total_movement / (movements.length : ℚ)
    let (level, interpretation) :=
      if avg < 15/1000 then ("low", "Minimal head movement")
      else if avg < 5/100 then ("normal", "Normal head movement")
      else ("high", "Excessive head movement")
    { head_movement_level := level
      level := some level
      interpretation := interpretation
      total_movement := some (pyRound 4 total_movement)
      avg_movement_per_frame := some (pyRound 4 avg)
      total_frames := s.head_pose_history.length }

def reset (_s : State) : State := initState

def run (s : State) (frames : List (ℚ × Option Obs)) : State :=
  frames.foldl (fun st f => (extract st f.1 f.2).1) s

end HeadMove

-- ===================================================================
-- HeadRepetitionFeature  (head_repetition_feature.py)
-- ===================================================================

namespace HeadRep

def TIME_WINDOW : ℚ := 2
def WARM_UP_PERIOD : ℚ := 2
def MIN_TOTAL_TIME : ℚ := 3
def MIN_AMPLITUDE : ℚ := 2/100
def MIN_SPEED : ℚ := 1/1000
def MAX_DRIFT_RATIO : ℚ := 65/100
def MIN_OSCILLATIONS : ℕ := 5

structure State where
  head_positions : List (ℚ × (ℚ × ℚ))
  session_start_time : Option ℚ
  accumulated_stimming_time : ℚ
  head_stimming_confirmed : Bool
  deriving Repr, DecidableEq

def initState : State :=
  { head_positions := []
    session_start_time := none
    accumulated_stimming_time := 0
    head_stimming_confirmed := false }

/-- `HeadRepetitionFeature._count_oscillations`: direction reversals of the
scalar sequence, skipping steps smaller than `MIN_SPEED` (the skipped step
leaves `prev_dir` unchanged, exactly like the source's `continue`). -/
def countOscillations (values : List ℚ) : ℕ :=
  let step := fun (acc : ℕ × ℤ) (d : ℚ) =>
    if |d| < MIN_SPEED then acc
    else
      let curr_dir : ℤ := if d > 0 then 1 else -1
      (if acc.2 ≠ 0 ∧ curr_dir ≠ acc.2 then acc.1 + 1 else acc.1, curr_dir)
  ((listDiffs values).foldl step (0, 0)).1

/-- `HeadRepetitionFeature.add_position`. -/
def addPosition (s : State) (position : ℚ × ℚ) (timestamp : ℚ) : State :=
  let start := s.session_start_time.getD timestamp
  let s := { s with session_start_time := some start }
  let elapsed := timestamp - start
  if elapsed < WARM_UP_PERIOD then s
  else
    let positions := s.head_positions ++ [(timestamp, position)]
    let cutoff := timestamp - (TIME_WINDOW + 1/2)
    { s with head_positions := positions.filter (fun p => p.1 ≥ cutoff) }

/-- `HeadRepetitionFeature.detect_oscillation` for one axis
(0 = horizontal/x, 1 = vertical/y); returns the `oscillations` entry. -/
def detectOscillation (s : State) (axis : Fin 2) : ℕ :=
  if s.head_positions.length < 6 then 0
  else
    let values := s.head_positions.map
      (fun p => if axis = (0 : Fin 2) then p.2.1 else p.2.2)
    let amplitude := listMax values - listMin values
    if amplitude < MIN_AMPLITUDE then 0
    else
      let oscillations := countOscillations values
      let travel := |listLast values - values.headD 0|
      let drift_ratio := travel / max amplitude (1/1000000)
      if drift_ratio > MAX_DRIFT_RATIO then 0
      else oscillations

structure WindowRes where
  detected : Bool
  horizontal_oscillations : ℕ
  vertical_oscillations : ℕ
  total_oscillations : ℕ
  level : String
  deriving Repr, DecidableEq

/-- `HeadRepetitionFeature.extract_from_window`. -/
def extractFromWindow (s : State) : State × WindowRes :=
  if s.head_positions.length < 6 then
    (s, { detected := false, horizontal_oscillations := 0, vertical_oscillations := 0,
          total_oscillations := 0, level := "normal" })
  else
    let h := detectOscillation s 0
    let v := detectOscillation s 1
    let total := max h v
    let window_valid := total ≥ MIN_OSCILLATIONS
    let s :=
      if window_valid then
        { s with accumulated_stimming_time := s.accumulated_stimming_time + TIME_WINDOW }
      else s
    let s :=
      if s.accumulated_stimming_time ≥ MIN_TOTAL_TIME then
        { s with head_stimming_confirmed := true }
      else s
    let level :=
      if total ≥ 10 then "high"
      else if total ≥ 7 then "moderate"
      else if total ≥ 5 then "low"
      else "normal"
    (s, { detected := s.head_stimming_confirmed, horizontal_oscillations := h,
          vertical_oscillations := v, total_oscillations := total, level := level })

structure Summary where
  detected : Bool
  level : String
  interpretation : String
  deriving Repr, DecidableEq

/-- `HeadRepetitionFeature.get_summary`. -/
def getSummary (s : State) : Summary :=
  if s.head_stimming_confirmed then
    { detected := true, level := "PRESENT",
      interpretation := "Sustained repetitive head movement detected" }
  else
    { detected := false, level := "ABSENT",
      interpretation := "No repetitive head movements detected" }

def reset (_s : State) : State := initState

/-- An update the session can apply to the head-repetition detector:
either a new tracked position or a window evaluation. -/
inductive Op
  | add (position : ℚ × ℚ) (timestamp : ℚ)
  | window
  deriving Repr, DecidableEq

def applyOp (s : State) : Op → State
  | Op.add p t => addPosition s p t
  | Op.window => (extractFromWindow s).1

def runOps (s : State) (ops : List Op) : State := ops.foldl applyOp s

end HeadRep

-- ===================================================================
-- HandRepetitionFeature  (hand_repetition_feature.py)
-- ===================================================================

namespace HandRep

def TIME_WINDOW : ℚ := 2
def WARM_UP_PERIOD : ℚ := 2
def CONFIRM_WINDOWS : ℕ := 3
def MIN_AMPLITUDE : ℚ := 2/100
def MAX_AMPLITUDE : ℚ := 25/100
def MIN_OSCILLATIONS : ℕ := 6

structure State where
  left_positions : List (ℚ × ℚ)
  right_positions : List (ℚ × ℚ)
  session_start_time : Option ℚ
  confirmed_windows : ℕ
  hand_stimming_confirmed : Bool
  deriving Repr, DecidableEq

def initState : State :=
  { left_positions := []
    right_positions := []
    session_start_time := none
    confirmed_windows := 0
    hand_stimming_confirmed := false }

/-- `HandRepetitionFeature._count_oscillations`: trims to the trailing
`TIME_WINDOW`, gates on sample count and amplitude, then counts
consecutive-sample sign changes of the raw diffs via `np.sign` products
(a zero diff has sign 0, so `signs[i] * signs[i-1] < 0` fails around it;
there is no minimum-step filter and no drift-ratio check). -/
def countOscillations (positions : List (ℚ × ℚ)) (now : ℚ) : ℕ :=
  let window_start := now - TIME_WINDOW
  let window := positions.filter (fun p => p.1 ≥ window_start)
  if window.length < 8 then 0
  else
    let ys := window.map (fun p => p.2)
    let amplitude := listMax ys - listMin ys
    if amplitude < MIN_AMPLITUDE ∨ amplitude > MAX_AMPLITUDE then 0
    else
      let signs := (listDiffs ys).map qsign
      (List.zipWith (fun a b => a * b) signs.tail signs).countP (fun p => p < 0)

/-- Wrist observation for one frame: the normalized y of each wrist whose
visibility exceeded 0.5, `none` otherwise. -/
structure PoseObs where
  left_y : Option ℚ
  right_y : Option ℚ
  deriving Repr, DecidableEq

structure FrameRes where
  hand_oscillation_detected : Bool
  left_oscillations : ℕ
  right_oscillations : ℕ
  status : String
  deriving Repr, DecidableEq

/-- `HandRepetitionFeature.extract`; the observation is `none` when the pose
model finds no pose landmarks. -/
def extract (s : State) (timestamp : ℚ) (obs : Option PoseObs) : State × FrameRes :=
  let start := s.session_start_time.getD timestamp
  let s := { s with session_start_time := some start }
  let elapsed := timestamp - start
  if elapsed < WARM_UP_PERIOD then
    (s, { hand_oscillation_detected := false, left_oscillations := 0,
          right_oscillations := 0, status := "warming_up" })
  else
    match obs with
    | none =>
      (s, { hand_oscillation_detected := false, left_oscillations := 0,
            right_oscillations := 0, status := "no_pose_detected" })
    | some o =>
      let s :=
        match o.left_y with
        | some y => { s with left_positions := s.left_positions ++ [(timestamp, y)] }
        | none => s
      let s :=
        match o.right_y with
        | some y => { s with right_positions := s.right_positions ++ [(timestamp, y)] }
        | none => s
      let cutoff := timestamp - (TIME_WINDOW + 1/2)
      let s := { s with
        left_positions := s.left_positions.filter (fun p => p.1 ≥ cutoff)
        right_positions := s.right_positions.filter (fun p => p.1 ≥ cutoff) }
      let left_osc := countOscillations s.left_positions timestamp
      let right_osc := countOscillations s.right_positions timestamp
      let window_detected := max left_osc right_osc ≥ MIN_OSCILLATIONS
      let s :=
        if window_detected then { s with confirmed_windows := s.confirmed_windows + 1 }
        else { s with confirmed_windows := s.confirmed_windows - 1 }
      let s :=
        if s.confirmed_windows ≥ CONFIRM_WINDOWS then
          { s with hand_stimming_confirmed := true }
        else s
      (s, { hand_oscillation_detected := s.hand_stimming_confirmed,
            left_oscillations := left_osc, right_oscillations := right_osc,
            status := "tracking" })

structure Summary where
  detected : Bool
  level : String
  interpretation : String
  deriving Repr, DecidableEq

/-- `HandRepetitionFeature.get_summary`. -/
def getSummary (s : State) : Summary :=
  if s.hand_stimming_confirmed then
    { detected := true, level := "PRESENT",
      interpretation := "Sustained repetitive hand movements detected" }
  else
    { detected := false, level := "ABSENT",
      interpretation := "No repetitive hand movements detected" }

def reset (_s : State) : State := initState

def run (s : State) (frames : List (ℚ × Option PoseObs)) : State :=
  frames.foldl (fun st f => (extract st f.1 f.2).1) s

end HandRep

-- ===================================================================
-- GestureDetectionFeature  (gesture_detection_feature.py)
-- ===================================================================

namespace Gesture

def MOVE_THRESHOLD : ℚ := 3/100
def GLITCH_LIMIT : ℚ := 15/100
def COOLDOWN_TIME : ℚ := 7/10
def PERSISTENCE_TIME : ℚ := 20/100
def warmup_duration : ℚ := 2

structure State where
  prev_pos : Option (ℚ × ℚ)
  prev_timestamp : Option ℚ
  gesture_start_time : Option ℚ
  last_trigger_time : ℚ
  gesture_timestamps : List ℚ
  session_start_time : Option ℚ
  total_frames : ℕ
  deriving Repr, DecidableEq

def initState : State :=
  { prev_pos := none
    prev_timestamp := none
    gesture_start_time := none
    last_trigger_time := 0
    gesture_timestamps := []
    session_start_time := none
    total_frames := 0 }

structure FrameRes where
  detected : Bool
  gesture_present : Bool
  warmup : Bool
  deriving Repr, DecidableEq

/-- `GestureDetectionFeature.extract`; the observation is `none` when no hand
is detected, otherwise the palm-center position (landmark 9); `norm` abstracts
`np.linalg.norm` on the 2-D displacement. -/
def extract (norm : ℚ × ℚ → ℚ) (s : State) (timestamp : ℚ) (obs : Option (ℚ × ℚ)) :
    State × FrameRes :=
  let start := s.session_start_time.getD timestamp
  let s := { s with session_start_time := some start, total_frames := s.total_frames + 1 }
  let elapsed := timestamp - start
  match obs with
  | none =>
    let s := { s with prev_pos := none, prev_timestamp := none, gesture_start_time := none }
    (s, { detected := false, gesture_present := false, warmup := elapsed < warmup_duration })
  | some current_pos =>
    let (s, gesture_detected) :=
      match s.prev_pos, s.prev_timestamp with
      | some prev, some _ =>
        let movement := norm (current_pos.1 - prev.1, current_pos.2 - prev.2)
        if movement < GLITCH_LIMIT then
          if movement > MOVE_THRESHOLD then
            let gesture_start := s.gesture_start_time.getD timestamp
            let s := { s with gesture_start_time := some gesture_start }
            let gesture_duration := timestamp - gesture_start
            if gesture_duration ≥ PERSISTENCE_TIME then
              if elapsed ≥ warmup_duration ∧ timestamp - s.last_trigger_time > COOLDOWN_TIME then
                ({ s with last_trigger_time := timestamp
                          gesture_timestamps := s.gesture_timestamps ++ [timestamp]
                          gesture_start_time := none }, true)
              else (s, false)
            else (s, false)
          else ({ s with gesture_start_time := none }, false)
        else (s, false)
      | _, _ => (s, false)
    let s := { s with prev_pos := some current_pos, prev_timestamp := some timestamp }
    (s, { detected := gesture_detected, gesture_present := gesture_detected,
          warmup := elapsed < warmup_duration })

structure Summary where
  gesture_frequency_per_minute : ℚ
  level : String
  interpretation : String
  total_gestures : ℕ
  total_frames : ℕ
  deriving Repr, DecidableEq

/-- `GestureDetectionFeature.get_summary`. -/
def getSummary (s : State) (session_duration_seconds : ℚ) : Summary :=
  if session_duration_seconds ≤ 0 then
    { gesture_frequency_per_minute := 0
      level := "insufficient_data"
      interpretation := "Invalid session duration"
      total_gestures := 0
      total_frames := s.total_frames }
  else
    let effective_duration := session_duration_seconds - warmup_duration
    if effective_duration ≤ 0 then
      { gesture_frequency_per_minute := 0
        level := "insufficient_data"
        interpretation := "Session too short"
        total_gestures := 0
        total_frames := s.total_frames }
    else
      let total_gestures := s.gesture_timestamps.length
      let frequency := (total_gestures : ℚ) / effective_duration * 60
      let frequency := min frequency 30
      let (level, interpretation) :=
        if frequency < 15/10 then
          ("low", "Limited social gesturing (potential autism indicator)")
        else if frequency ≤ 10 then ("normal", "Normal gesture frequency")
        else ("high", "Frequent gesturing")
      { gesture_frequency_per_minute := pyRound 2 frequency
        level := level
        interpretation := interpretation
        total_gestures := total_gestures
        total_frames := s.total_frames }

def reset (_s : State) : State := initState

end Gesture

-- ===================================================================
-- ExpressionVariabilityFeature  (expression_variability_feature.py)
-- ===================================================================

namespace Expr

def warmup_duration : ℚ := 2

/-- Outcome of one attempted call to the DeepFace emotion collaborator
(modelling the `requests.post` call and its exception taxonomy):
* `response status dominant` — an HTTP response arrived; `dominant` is
  `data.get("dominant_emotion")` (`none` models a missing key);
* `timeout` — `requests.exceptions.Timeout`;
* `exc connectionLike` — any other exception; `connectionLike` is whether its
  string representation contains "Connection" or "refused". -/
inductive CallOutcome
  | response (status : ℕ) (dominant : Option String)
  | timeout
  | exc (connectionLike : Bool)
  deriving Repr, DecidableEq

/-- Per-frame input to the expression detector: whether `frame is None`,
whether the Haar cascade found a face, and the collaborator outcome that
the call would produce were it made this frame. -/
structure Obs where
  frame_none : Bool
  face_detected : Bool
  outcome : CallOutcome
  deriving Repr, DecidableEq

structure State where
  deepface_available : Bool
  emotion_history : List String
  session_start_time : Option ℚ
  total_frames_processed : ℕ
  successful_detections : ℕ
  deriving Repr, DecidableEq

/-- Initial state; `available` is the result of the startup health check. -/
def initState (available : Bool) : State :=
  { deepface_available := available
    emotion_history := []
    session_start_time := none
    total_frames_processed := 0
    successful_detections := 0 }

structure FrameRes where
  detected : Bool
  warmup : Bool
  deriving Repr, DecidableEq

/-- `ExpressionVariabilityFeature.extract`.  Every collaborator outcome is
mapped to a defined result (the source wraps the call in
`try/except Timeout/except Exception`), so the embedding is a total function:
no outcome propagates an error to the caller. -/
def extract (s : State) (timestamp : ℚ) (obs : Obs) : State × FrameRes :=
  let start := s.session_start_time.getD timestamp
  let s := { s with session_start_time := some start,
                    total_frames_processed := s.total_frames_processed + 1 }
  let elapsed := timestamp - start
  if obs.frame_none then (s, { detected := false, warmup := false })
  else if !obs.face_detected then
    (s, { detected := false, warmup := elapsed < warmup_duration })
  else if elapsed < warmup_duration then
    (s, { detected := true, warmup := true })
  else if !s.deepface_available ∨ s.total_frames_processed % 10 ≠ 0 then
    (s, { detected := true, warmup := false })
  else
    let s :=
      match obs.outcome with
      | CallOutcome.response status dominant =>
        if status = 200 then
          match dominant with
          | some emotion =>
            if emotion ≠ "unknown" then
              { s with emotion_history := s.emotion_history ++ [emotion]
                       successful_detections := s.successful_detections + 1 }
            else s
          | none => s
        else s
      | CallOutcome.timeout => s
      | CallOutcome.exc connectionLike =>
        if connectionLike then { s with deepface_available := false } else s
    (s, { detected := true, warmup := false })

structure Summary where
  variability : ℚ
  level : String
  interpretation : String
  detection_rate : ℚ
  deriving Repr, DecidableEq

/-- Shannon entropy term of the summary; `log2` abstracts `np.log2`. -/
def entropyVariability (log2 : ℚ → ℚ) (history : List String) : ℚ :=
  let values := history.dedup
  let counts := values.map (fun v => (history.count v : ℚ))
  let total := counts.sum
  let probabilities := counts.map (fun c => c / total)
  let entropy := -(probabilities.map (fun p => p * log2 (p + 1/1000000000))).sum
  let max_entropy := log2 (values.length : ℚ)
  let variability := entropy / max max_entropy (1/1000000000)
  min (max variability 0) 1

/-- `ExpressionVariabilityFeature.get_summary`. -/
def getSummary (log2 : ℚ → ℚ) (s : State) : Summary :=
  let detection_rate := (s.successful_detections : ℚ) / max 1 (s.total_frames_processed : ℚ)
  if s.emotion_history.length < 20 then
    { variability := 0
      level := "insufficient_data"
      interpretation := "Insufficient facial expression data collected"
      detection_rate := detection_rate }
  else
    let variability := entropyVariability log2 s.emotion_history
    let (level, interpretation) :=
      if variability < 50/100 then
        ("low", "Restricted facial expressions - limited emotional range observed (autism indicator)")
      else if variability < 75/100 then
        ("moderate", "Moderate emotional expressiveness - some variation but limited")
      else
        ("high", "Diverse emotional expressions - good range of facial expressions")
    { variability := variability
      level := level
      interpretation := interpretation
      detection_rate := detection_rate }

def reset (s : State) : State :=
  { s with emotion_history := []
           session_start_time := none
           total_frames_processed := 0
           successful_detections := 0 }

def run (s : State) (frames : List (ℚ × Obs)) : State :=
  frames.foldl (fun st f => (extract st f.1 f.2).1) s

end Expr

-- ===================================================================
-- VideoFeatureOrchestrator  (video_orchestrator.py)
-- ===================================================================

namespace Orch

structure State where
  eye_contact : EyeContact.State
  blink_rate : Blink.State
  head_movement : HeadMove.State
  head_repetition : HeadRep.State
  hand_repetition : HandRep.State
  gesture_detection : Gesture.State
  expression_variability : Expr.State
  frame_count : ℕ
  session_start_time : Option ℚ
  deriving Repr, DecidableEq

/-- `VideoFeatureOrchestrator.__init__` (with the given health-check result
for the expression detector's collaborator). -/
def initState (available : Bool) : State :=
  { eye_contact := EyeContact.initState
    blink_rate := Blink.initState
    head_movement := HeadMove.initState
    head_repetition := HeadRep.initState
    hand_repetition := HandRep.initState
    gesture_detection := Gesture.initState
    expression_variability := Expr.initState available
    frame_count := 0
    session_start_time := none }

/-- Per-frame input to `process_frame`.  Each component models what the
corresponding call on this frame would do: `.ok obs` means the call returns
normally with the given observation, `.error e` means it raises an exception
with message `e`.  `decode` models `decode_frame`. -/
structure FrameInput where
  decode : Except String Unit
  eye : Except String (Option EyeContact.FaceObs)
  blink : Except String (Option (ℚ × ℚ))
  head : Except String (Option HeadMove.Obs)
  hand : Except String (Option HandRep.PoseObs)
  gesture : Except String (Option (ℚ × ℚ))
  expression : Except String Expr.Obs

/-- The per-frame results dictionary built by `process_frame`. -/
structure FrameResult where
  timestamp : ℚ
  elapsed_time : ℚ
  frame_number : ℕ
  eye_contact : EyeContact.FrameRes
  blink : Blink.FrameRes
  head_pose : HeadMove.FrameRes
  hand_repetition : HandRep.FrameRes
  gesture : Gesture.FrameRes
  facial_expression : Expr.FrameRes
  deriving Repr, DecidableEq

/-- `VideoFeatureOrchestrator.process_frame`.  The detector calls are
sequenced exactly as in the source (eye contact, blink, head movement, hand
repetition, gesture, expression, then the conditional
`head_repetition.add_position`); there is no `try/except` around any call, so
the first raising call short-circuits: its error is returned and none of the
later detectors run.  Mutations made before the raise persist in the
returned state, mirroring the Python object surviving the exception. -/
def processFrame (norm : ℚ × ℚ → ℚ) (s : State) (timestamp : ℚ) (input : FrameInput) :
    Except String FrameResult × State :=
  let start := s.session_start_time.getD timestamp
  let s := { s with session_start_time := some start, frame_count := s.frame_count + 1 }
  let elapsed := timestamp - start
  match input.decode with
  | Except.error e => (Except.error e, s)
  | Except.ok _ =>
  match input.eye with
  | Except.error e => (Except.error e, s)
  | Except.ok eyeObs =>
  let (eyeSt, eyeRes) := EyeContact.extract s.eye_contact timestamp eyeObs
  let s := { s with eye_contact := eyeSt }
  match input.blink with
  | Except.error e => (Except.error e, s)
  | Except.ok blinkObs =>
  let (blinkSt, blinkRes) := Blink.extract s.blink_rate timestamp blinkObs
  let s := { s with blink_rate := blinkSt }
  match input.head with
  | Except.error e => (Except.error e, s)
  | Except.ok headObs =>
  let (headSt, headRes) := HeadMove.extract s.head_movement timestamp headObs
  let s := { s with head_movement := headSt }
  match input.hand with
  | Except.error e => (Except.error e, s)
  | Except.ok handObs =>
  let (handSt, handRes) := HandRep.extract s.hand_repetition timestamp handObs
  let s := { s with hand_repetition := handSt }
  match input.gesture with
  | Except.error e => (Except.error e, s)
  | Except.ok gestureObs =>
  let (gestureSt, gestureRes) := Gesture.extract norm s.gesture_detection timestamp gestureObs
  let s := { s with gesture_detection := gestureSt }
  match input.expression with
  | Except.error e => (Except.error e, s)
  | Except.ok exprObs =>
  let (exprSt, exprRes) := Expr.extract s.expression_variability timestamp exprObs
  let s := { s with expression_variability := exprSt }
  let s :=
    if headRes.detected then
      match headRes.position with
      | some pos =>
        { s with head_repetition := HeadRep.addPosition s.head_repetition pos timestamp }
      | none => s
    else s
  (Except.ok
    { timestamp := timestamp
      elapsed_time := elapsed
      frame_number := s.frame_count
      eye_contact := eyeRes
      blink := blinkRes
      head_pose := headRes
      hand_repetition := handRes
      gesture := gestureRes
      facial_expression := exprRes }, s)

/-- The flat session summary dictionary built by `get_session_summary`
(nested dictionaries flattened into named fields). -/
structure FlatSummary where
  eye_contact_ratio : ℚ
  eye_contact_level : String
  eye_contact_interpretation : String
  blink_rate_per_minute : ℚ
  blink_level : String
  blink_interpretation : String
  head_movement_avg_per_frame : ℚ
  head_movement_rate : ℚ
  head_movement_level : String
  head_movement_interpretation : String
  head_movements_present : Bool
  head_movements_repetitive : Bool
  head_movements_description : String
  hand_stimming_present : Bool
  hand_stimming_severity : String
  hand_stimming_description : String
  social_gestures_present : Bool
  social_gestures_frequency_per_minute : ℚ
  social_gestures_description : String
  facial_expression_variability : ℚ
  expression_level : String
  expression_interpretation : String
  sessionDuration : ℚ
  totalFrames : ℕ
  dq_face_detection_ratio : ℚ
  dq_expression_detection_rate : ℚ
  deriving Repr, DecidableEq

structure ClinicalInterpretation where
  risk_level : String
  risk_score : ℚ
  concerns : List String
  summary : String
  deriving Repr, DecidableEq

/-- `VideoFeatureOrchestrator._clinical_summary_from_flat`. -/
def clinicalSummaryFromFlat (s : FlatSummary) : ClinicalInterpretation :=
  let concerns : List String :=
    (if s.eye_contact_level = "very_low" ∨ s.eye_contact_level = "low"
     then ["Reduced eye contact"] else []) ++
    (if s.blink_level = "low" then ["Reduced blink rate"] else []) ++
    (if s.expression_level = "low" then ["Restricted facial expressions"] else []) ++
    (if s.hand_stimming_present then ["Hand stimming detected"] else []) ++
    (if s.head_movements_repetitive then ["Head stimming detected"] else []) ++
    (if !s.social_gestures_present then ["Limited social gestures"] else [])
  let risk_score := min ((concerns.length : ℚ) / 5) 1
  let risk :=
    if risk_score ≥ 6/10 then "High"
    else if risk_score ≥ 4/10 then "Moderate"
    else "Low"
  { risk_level := risk
    risk_score := pyRound 3 risk_score
    concerns := concerns
    summary := toString concerns.length ++ " behavioral concern(s) detected" }

structure SessionOutput where
  flat : FlatSummary
  clinical_interpretation : ClinicalInterpretation
  deriving Repr, DecidableEq

/-- `VideoFeatureOrchestrator.get_session_summary`.  `EyeContactFeature.
get_summary` mutates the eye-contact state, so the updated orchestrator state
is returned alongside the summary. -/
def getSessionSummary (norm : ℚ × ℚ → ℚ) (log2 : ℚ → ℚ) (s : State)
    (session_duration_seconds : ℚ) : SessionOutput × State :=
  let (eye, eyeSt) := EyeContact.getSummary s.eye_contact
  let blink := Blink.getSummary s.blink_rate session_duration_seconds
  let head_move := HeadMove.getSummary norm s.head_movement
  let head_rep := HeadRep.getSummary s.head_repetition
  let hand_rep := HandRep.getSummary s.hand_repetition
  let gesture := Gesture.getSummary s.gesture_detection session_duration_seconds
  let expr := Expr.getSummary log2 s.expression_variability
  let flat : FlatSummary :=
    { eye_contact_ratio := eye.eye_contact_ratio
      eye_contact_level := eye.level
      eye_contact_interpretation := eye.interpretation
      blink_rate_per_minute := blink.blink_rate_per_minute
      blink_level := blink.level
      blink_interpretation := blink.interpretation
      head_movement_avg_per_frame := head_move.avg_movement_per_frame.getD 0
      head_movement_rate := head_move.avg_movement_per_frame.getD 0
      head_movement_level := head_move.level.getD "unknown"
      head_movement_interpretation := head_move.interpretation
      head_movements_present := head_rep.detected
      head_movements_repetitive := head_rep.detected
      head_movements_description :=
        if head_rep.detected then "Repetitive head movements detected"
        else "No repetitive head movements"
      hand_stimming_present := hand_rep.detected
      hand_stimming_severity := if hand_rep.detected then "PRESENT" else "ABSENT"
      hand_stimming_description := hand_rep.interpretation
      social_gestures_present := s.gesture_detection.gesture_timestamps.length > 0
      social_gestures_frequency_per_minute := gesture.gesture_frequency_per_minute
      social_gestures_description := gesture.interpretation
      facial_expression_variability := expr.variability
      expression_level := expr.level
      expression_interpretation := expr.interpretation
      sessionDuration := session_duration_seconds
      totalFrames := s.frame_count
      dq_face_detection_ratio := eye.face_detection_ratio
      dq_expression_detection_rate := expr.detection_rate }
  ({ flat := flat, clinical_interpretation := clinicalSummaryFromFlat flat },
   { s with eye_contact := eyeSt })

/-- `VideoFeatureOrchestrator.reset`. -/
def reset (s : State) : State :=
  { eye_contact := EyeContact.reset s.eye_contact
    blink_rate := Blink.reset s.blink_rate
    head_movement := HeadMove.reset s.head_movement
    head_repetition := HeadRep.reset s.head_repetition
    hand_repetition := HandRep.reset s.hand_repetition
    gesture_detection := Gesture.reset s.gesture_detection
    expression_variability := Expr.reset s.expression_variability
    frame_count := 0
    session_start_time := none }

end Orch

-- ===================================================================
-- Specification-side definitions and concrete example inputs
-- ===================================================================

/-- Invariant maintained for stored eye-contact segments: every retained
segment lasts at least `MIN_EYE_CONTACT_DURATION`. -/
def EyeContact.segsInv (s : EyeContact.State) : Prop :=
  ∀ p ∈ s.eye_contact_segments, p.1 + EyeContact.MIN_EYE_CONTACT_DURATION ≤ p.2

/-- Travel-to-amplitude drift ratio of a scalar window, exactly as
`HeadRepetitionFeature.detect_oscillation` computes it
(`travel / max(amplitude, 1e-6)`). -/
def driftRatio (values : List ℚ) : ℚ :=
  |listLast values - values.headD 0| / max (listMax values - listMin values) (1/1000000)

/-- The window-evaluation pattern the specification ascribes to the hand
detector (spec §4.5): the hand detector's own trailing-window, sample-count
and amplitude gates, followed by a direction-reversal count that ignores
near-zero steps below the minimum-step threshold, and rejection of the window
when the drift ratio exceeds the configured bound.  Built from the spec's
words for comparison against `HandRep.countOscillations`; the minimum-step
and drift constants are the configured ones (`HeadRep.MIN_SPEED`,
`HeadRep.MAX_DRIFT_RATIO`), the only such constants configured in the source. -/
def handCountOscillationsSpec (positions : List (ℚ × ℚ)) (now : ℚ) : ℕ :=
  let window := positions.filter (fun p => p.1 ≥ now - HandRep.TIME_WINDOW)
  if window.length < 8 then 0
  else
    let ys := window.map (fun p => p.2)
    let amplitude := listMax ys - listMin ys
    if amplitude < HandRep.MIN_AMPLITUDE ∨ amplitude > HandRep.MAX_AMPLITUDE then 0
    else if driftRatio ys > HeadRep.MAX_DRIFT_RATIO then 0
    else HeadRep.countOscillations ys

/-- Number of distinct concern rules in
`VideoFeatureOrchestrator._clinical_summary_from_flat` (spec: "total number
of possible concerns"). -/
def totalPossibleConcerns : ℕ := 6

/-- Face observation that satisfies all three `looking` sub-checks. -/
def eyeLookObs : EyeContact.FaceObs :=
  { left_ear := 3/10, right_ear := 3/10, left_eye_x := 6/10, right_eye_x := 4/10,
    nose_x := 1/2, gaze_left := 1/2, gaze_right := 1/2 }

/-- Face observation whose eyes-open check fails (`looking = false`). -/
def eyeNoLookObs : EyeContact.FaceObs :=
  { left_ear := 1/10, right_ear := 1/10, left_eye_x := 6/10, right_eye_x := 4/10,
    nose_x := 1/2, gaze_left := 1/2, gaze_right := 1/2 }

/-- A session sampled at a low frame rate: looking from warm-up end (t = 2)
until t = 10, then looking away; 3 frames in total. -/
def eyeCoarseFrames : List (ℚ × Option EyeContact.FaceObs) :=
  [(0, some eyeLookObs), (2, some eyeLookObs), (10, some eyeNoLookObs)]

def eyeCoarseRun : EyeContact.State := EyeContact.run EyeContact.initState eyeCoarseFrames

/-- The same timestamped looking/not-looking timeline sampled at a higher
frame rate: 38 extra looking frames inside the warm-up interval (t < 2), so
the dwell segments are identical but the frame count is 41 instead of 3. -/
def eyeFineFrames : List (ℚ × Option EyeContact.FaceObs) :=
  [(0, some eyeLookObs)] ++
  ((List.range 38).map (fun i => (((i : ℚ) + 1) / 20, some eyeLookObs))) ++
  [(2, some eyeLookObs), (10, some eyeNoLookObs)]

def eyeFineRun : EyeContact.State := EyeContact.run EyeContact.initState eyeFineFrames

/-- Eye-contact state with one retained 8-second segment (as a literal). -/
def eyeSegState : EyeContact.State :=
  { session_start_time := some 0, total_frames := 3, face_detected_count := 3,
    current_contact_start := none, eye_contact_segments := [(2, 10)] }

/-- Eye-contact state with an open dwell that started at t = 3. -/
def eyeOpenDwellState : EyeContact.State :=
  { session_start_time := some 0, total_frames := 50, face_detected_count := 50,
    current_contact_start := some 3, eye_contact_segments := [(2, 10)] }

/-- Flat summary triggering exactly two concern rules (low eye contact and
low blink rate). -/
def flatTwoConcerns : Orch.FlatSummary :=
  { eye_contact_ratio := 3/10, eye_contact_level := "low", eye_contact_interpretation := "",
    blink_rate_per_minute := 3, blink_level := "low", blink_interpretation := "",
    head_movement_avg_per_frame := 0, head_movement_rate := 0,
    head_movement_level := "normal", head_movement_interpretation := "",
    head_movements_present := false, head_movements_repetitive := false,
    head_movements_description := "", hand_stimming_present := false,
    hand_stimming_severity := "ABSENT", hand_stimming_description := "",
    social_gestures_present := true, social_gestures_frequency_per_minute := 3,
    social_gestures_description := "", facial_expression_variability := 8/10,
    expression_level := "high", expression_interpretation := "",
    sessionDuration := 60, totalFrames := 100,
    dq_face_detection_ratio := 1, dq_expression_detection_rate := 1 }

/-- Trivial stand-in for the abstract Euclidean-norm parameter in concrete
orchestrator runs that never reach the gesture detector. -/
def zeroNorm : ℚ × ℚ → ℚ := fun _ => 0

/-- Frame input whose eye-contact detector call raises; every other call
would succeed. -/
def orchInputEyeErr : Orch.FrameInput :=
  { decode := Except.ok ()
    eye := Except.error "detector failure"
    blink := Except.ok none
    head := Except.ok none
    hand := Except.ok none
    gesture := Except.ok none
    expression := Except.ok { frame_none := false, face_detected := false,
                              outcome := Expr.CallOutcome.timeout } }

/-- The same frame input with the eye-contact call succeeding. -/
def orchInputAllOk : Orch.FrameInput :=
  { orchInputEyeErr with eye := Except.ok none }

/-- Wrist EAR pairs used by the concrete blink traces. -/
def blinkOpenEars : Option (ℚ × ℚ) := some (3/10, 3/10)

def blinkClosedEars : Option (ℚ × ℚ) := some (1/10, 1/10)

/-- A session with a single full eye closure: eyes open through warm-up,
closed at t = 3, open again at t = 3 + d. -/
def blinkClosureRun (d : ℚ) : Blink.State :=
  Blink.run Blink.initState
    [(0, blinkOpenEars), (2, blinkOpenEars), (3, blinkClosedEars), (3 + d, blinkOpenEars)]

/-- Blink state after warm-up with the eyes open (as a literal). -/
def blinkReadyState : Blink.State :=
  { session_start_time := some 0, eye_closed := false, blink_start_time := none,
    blink_timestamps := [], face_detected_frames := 2, total_frames := 2 }

/-- A 2-second wrist window with amplitude 0.2, six direction reversals and
net travel 0.2 (drift ratio 1). -/
def handDriftWindow : List (ℚ × ℚ) :=
  [(0, 0), (1/5, 1/10), (2/5, 1/20), (3/5, 3/20), (4/5, 1/10), (1, 1/5), (6/5, 3/20), (7/5, 1/5)]

/-- Scalar window whose backward steps are all below `HeadRep.MIN_SPEED`:
the head-style counter sees zero reversals, the hand-style counter six. -/
def tinyStepYs : List ℚ := [0, 3/100, 295/10000, 6/100, 595/10000, 9/100, 895/10000, 12/100]

def tinyStepWindow : List (ℚ × ℚ) :=
  (List.range 8).zipWith (fun i y => ((i : ℚ) / 5, y)) tinyStepYs

/-- An 8-sample wrist window whose amplitude (0.01) is below
`HandRep.MIN_AMPLITUDE`. -/
def tinyAmpWindow : List (ℚ × ℚ) :=
  [(0, 0), (1/5, 1/100), (2/5, 0), (3/5, 1/100), (4/5, 0), (1, 1/100), (6/5, 0), (7/5, 1/100)]

/-- Head-repetition state whose buffered x-values drift monotonically
(drift ratio 1). -/
def headDriftState : HeadRep.State :=
  { head_positions := [(0, (0, 0)), (1, (1/10, 0)), (2, (2/10, 0)), (3, (3/10, 0)),
                       (4, (4/10, 0)), (5, (5/10, 0))]
    session_start_time := some 0
    accumulated_stimming_time := 0
    head_stimming_confirmed := false }

/-- Hand-repetition state with the stimming flag already confirmed. -/
def handConfirmedState : HandRep.State :=
  { left_positions := [], right_positions := [], session_start_time := some 0,
    confirmed_windows := 3, hand_stimming_confirmed := true }

/-- Head-repetition state with the stimming flag already confirmed. -/
def headConfirmedState : HeadRep.State :=
  { head_positions := [], session_start_time := some 0,
    accumulated_stimming_time := 4, head_stimming_confirmed := true }

/-- A frame observation on which the attempted emotion-classifier call fails
(timeout, non-200 response, or any raised exception). -/
def Expr.failingObs (o : Expr.Obs) : Prop :=
  match o.outcome with
  | Expr.CallOutcome.response status _ => status ≠ 200
  | Expr.CallOutcome.timeout => True
  | Expr.CallOutcome.exc _ => True

/-- A 25-frame all-faces session whose every sampled classifier call times
out. -/
def exprTimeoutFrames : List (ℚ × Expr.Obs) :=
  (List.range 25).map (fun i =>
    (((i : ℚ)) / 5 + 2,
     { frame_none := false, face_detected := true, outcome := Expr.CallOutcome.timeout }))

/-- Head-movement observation with the nose at a fixed position. -/
def hmObs : HeadMove.Obs :=
  { nose_tip := (1/2, 1/2), nose_bridge := (1/2, 2/5) }

/-- Head-movement session whose second sample is 990 seconds older than the
final update. -/
def hmLongRun : HeadMove.State :=
  HeadMove.run HeadMove.initState [(0, some hmObs), (10, some hmObs), (1000, some hmObs)]

-- ===================================================================
-- Helper lemmas
-- ===================================================================

lemma roundHalfEven_nonneg (q : ℚ) (h : 0 ≤ q) : 0 ≤ roundHalfEven q := by
  have hf : (0 : ℤ) ≤ ⌊q⌋ := Int.floor_nonneg.mpr h
  unfold roundHalfEven
  dsimp only
  split_ifs <;> omega

lemma pyRound_nonneg (n : ℕ) (q : ℚ) (h : 0 ≤ q) : 0 ≤ pyRound n q := by
  unfold pyRound
  apply div_nonneg _ (by positivity)
  exact_mod_cast roundHalfEven_nonneg _ (by positivity)

lemma segmentDurationSum_nonneg (segs : List (ℚ × ℚ))
    (h : ∀ p ∈ segs, p.1 + 1 ≤ p.2) : 0 ≤ segmentDurationSum segs := by
  unfold segmentDurationSum
  apply List.sum_nonneg
  intro x hx
  simp only [List.mem_map] at hx
  obtain ⟨p, hp, rfl⟩ := hx
  have := h p hp
  linarith

lemma EyeContact.endEyeContact_zero (s : EyeContact.State) (c : ℚ)
    (h : s.current_contact_start = some c) :
    EyeContact.endEyeContact s c = { s with current_contact_start := none } := by
  unfold EyeContact.endEyeContact
  rw [h]
  norm_num [EyeContact.MIN_EYE_CONTACT_DURATION]

lemma EyeContact.getSummary_snd (s : EyeContact.State) :
    (EyeContact.getSummary s).2 = { s with current_contact_start := none } := by
  unfold EyeContact.getSummary
  cases h : s.current_contact_start with
  | none => cases s; simp_all
  | some c => simp [EyeContact.endEyeContact_zero s c h]

lemma EyeContact.getSummary_fst_none (s : EyeContact.State) :
    (EyeContact.getSummary s).1 =
      (EyeContact.getSummary { s with current_contact_start := none }).1 := by
  unfold EyeContact.getSummary
  cases h : s.current_contact_start with
  | none => cases s; simp_all
  | some c => simp [EyeContact.endEyeContact_zero s c h]

lemma EyeContact.getSummary_ratio (s : EyeContact.State) :
    ((EyeContact.getSummary s).1).eye_contact_ratio =
      pyRound 3 (segmentDurationSum s.eye_contact_segments /
        max ((s.total_frames : ℚ) * (33/1000)) 1) := by
  unfold EyeContact.getSummary
  cases h : s.current_contact_start with
  | none => simp [h]
  | some c => simp [EyeContact.endEyeContact_zero s c h]

lemma EyeContact.endEyeContact_segsInv (s : EyeContact.State) (t : ℚ)
    (h : EyeContact.segsInv s) : EyeContact.segsInv (EyeContact.endEyeContact s t) := by
  unfold EyeContact.endEyeContact
  cases hc : s.current_contact_start with
  | none => exact h
  | some start =>
    dsimp only
    split_ifs with hd
    · intro p hp
      simp only [List.mem_append, List.mem_singleton] at hp
      rcases hp with hp | rfl
      · exact h p hp
      · simp only [EyeContact.MIN_EYE_CONTACT_DURATION] at hd ⊢
        linarith
    · exact h

lemma EyeContact.extract_segsInv (s : EyeContact.State) (t : ℚ)
    (obs : Option EyeContact.FaceObs) (h : EyeContact.segsInv s) :
    EyeContact.segsInv ((EyeContact.extract s t obs).1) := by
  unfold EyeContact.extract
  cases obs with
  | none => exact EyeContact.endEyeContact_segsInv _ t h
  | some o =>
    dsimp only
    split_ifs with h1 h2
    · cases hc : s.current_contact_start <;> simp only [hc] <;> exact h
    · exact EyeContact.endEyeContact_segsInv _ t h
    · exact h

-- ===================================================================
-- C1: eye-contact ratio bounds / denominator / frame-rate dependence
-- ===================================================================

lemma eyeCoarseRun_eval :
    eyeCoarseRun = { session_start_time := some 0, total_frames := 3, face_detected_count := 3,
                     current_contact_start := none, eye_contact_segments := [(2, 10)] } := by
  norm_num [eyeCoarseRun, eyeCoarseFrames, EyeContact.run, EyeContact.extract,
    EyeContact.endEyeContact, EyeContact.looking, eyeLookObs, eyeNoLookObs,
    EyeContact.initState, EyeContact.EYE_OPEN_THRESHOLD, EyeContact.NOSE_CENTER_THRESHOLD,
    EyeContact.GAZE_CENTER_THRESHOLD, EyeContact.warmup_duration,
    EyeContact.MIN_EYE_CONTACT_DURATION]

lemma eyeFineRun_eval :
    eyeFineRun = { session_start_time := some 0, total_frames := 41, face_detected_count := 41,
                   current_contact_start := none, eye_contact_segments := [(2, 10)] } := by
  norm_num [eyeFineRun, eyeFineFrames, EyeContact.run, EyeContact.extract,
    EyeContact.endEyeContact, EyeContact.looking, eyeLookObs, eyeNoLookObs,
    EyeContact.initState, EyeContact.EYE_OPEN_THRESHOLD, EyeContact.NOSE_CENTER_THRESHOLD,
    EyeContact.GAZE_CENTER_THRESHOLD, EyeContact.warmup_duration,
    EyeContact.MIN_EYE_CONTACT_DURATION, List.range, List.range.loop]

/-- C1 (counterexample): on a session whose only retained dwell segment is
(2, 10), the summary reports `eye_contact_ratio = 8 > 1` because the
denominator is `max(total_frames × 0.033, 1.0)`, not the session duration;
resampling the identical timestamped looking/not-looking timeline at a higher
frame rate (41 frames instead of 3, identical retained segments) changes the
reported ratio to 5.913, so the ratio is not frame-rate independent. -/
theorem C1_counterexample :
    ((EyeContact.getSummary eyeCoarseRun).1).eye_contact_ratio = 8 ∧
    ¬ ((EyeContact.getSummary eyeCoarseRun).1).eye_contact_ratio ≤ 1 ∧
    eyeCoarseRun.eye_contact_segments = [(2, 10)] ∧
    eyeFineRun.eye_contact_segments = eyeCoarseRun.eye_contact_segments ∧
    ((EyeContact.getSummary eyeFineRun).1).eye_contact_ratio = 5913/1000 ∧
    ((EyeContact.getSummary eyeFineRun).1).eye_contact_ratio ≠
      ((EyeContact.getSummary eyeCoarseRun).1).eye_contact_ratio := by
  rw [EyeContact.getSummary_ratio, EyeContact.getSummary_ratio, eyeCoarseRun_eval,
    eyeFineRun_eval]
  norm_num [segmentDurationSum, pyRound, roundHalfEven]

/-- C1 (amended): the retained-segment invariant (every stored segment lasts
at least `MIN_EYE_CONTACT_DURATION`) is preserved by `extract`; under it the
reported `eye_contact_ratio` is nonnegative, and it always equals
`round(Σ retained segment durations / max(total_frames × 0.033, 1.0), 3)` —
a frame-count-based denominator, not the total session duration, so the ratio
may exceed 1 and varies with the frame rate. -/
theorem C1_theorem :
    (∀ (s : EyeContact.State) (t : ℚ) (obs : Option EyeContact.FaceObs),
      EyeContact.segsInv s → EyeContact.segsInv ((EyeContact.extract s t obs).1)) ∧
    (∀ s : EyeContact.State, EyeContact.segsInv s →
      0 ≤ ((EyeContact.getSummary s).1).eye_contact_ratio) ∧
    (∀ s : EyeContact.State,
      ((EyeContact.getSummary s).1).eye_contact_ratio =
        pyRound 3 (segmentDurationSum s.eye_contact_segments /
          max ((s.total_frames : ℚ) * (33/1000)) 1)) := by
  refine ⟨EyeContact.extract_segsInv, ?_, EyeContact.getSummary_ratio⟩
  intro s hs
  rw [EyeContact.getSummary_ratio]
  apply pyRound_nonneg
  apply div_nonneg
  · apply segmentDurationSum_nonneg
    intro p hp
    simpa [EyeContact.MIN_EYE_CONTACT_DURATION] using hs p hp
  · exact le_trans zero_le_one (le_max_right _ 1)

lemma eyeSegState_segsInv : EyeContact.segsInv eyeSegState := by
  intro p hp
  norm_num [eyeSegState] at hp
  norm_num [hp, EyeContact.MIN_EYE_CONTACT_DURATION]

/-- C1 (witness): the amended statement applied to the concrete state with
one retained segment (2, 10). -/
theorem C1_witness :
    EyeContact.segsInv ((EyeContact.extract eyeSegState 11 none).1) ∧
    0 ≤ ((EyeContact.getSummary eyeSegState).1).eye_contact_ratio :=
  ⟨C1_theorem.1 eyeSegState 11 none eyeSegState_segsInv,
   C1_theorem.2.1 eyeSegState eyeSegState_segsInv⟩

-- ===================================================================
-- C2: clinical interpretation risk score and risk label
-- ===================================================================

/-- C2 (counterexample): with exactly two triggered concerns the code
computes `risk_score = min(2/5, 1) = 0.4` and the label "Moderate", whereas
the claimed score — triggered concerns divided by the total number of
possible concerns (six rules) — is 2/6: the divisor in the source is 5, not
the number of possible concerns. -/
theorem C2_counterexample :
    (Orch.clinicalSummaryFromFlat flatTwoConcerns).concerns.length = 2 ∧
    (Orch.clinicalSummaryFromFlat flatTwoConcerns).risk_score = 2/5 ∧
    (Orch.clinicalSummaryFromFlat flatTwoConcerns).risk_score ≠
      ((Orch.clinicalSummaryFromFlat flatTwoConcerns).concerns.length : ℚ) /
        (totalPossibleConcerns : ℚ) ∧
    (Orch.clinicalSummaryFromFlat flatTwoConcerns).risk_level = "Moderate" := by
  simp [Orch.clinicalSummaryFromFlat, flatTwoConcerns, totalPossibleConcerns]
  norm_num [pyRound, roundHalfEven]

set_option maxHeartbeats 2000000 in
/-- C2 (amended): the clinical interpretation is a pure function of the
feature-level inputs (the embedding is a function, so equal inputs give equal
outputs); it evaluates the six concern rules exactly as claimed, but computes
`risk_score = round(min(|concerns| / 5, 1.0), 3)` — the divisor is the
constant 5 although six concerns are possible — and maps the unrounded score
through the cutoffs 0.6 and 0.4, which on the possible concern counts means:
at least 3 concerns is High, exactly 2 is Moderate, fewer is Low. -/
theorem C2_theorem :
    ∀ s : Orch.FlatSummary,
      (Orch.clinicalSummaryFromFlat s).concerns.length ≤ totalPossibleConcerns ∧
      (Orch.clinicalSummaryFromFlat s).risk_score =
        pyRound 3 (min (((Orch.clinicalSummaryFromFlat s).concerns.length : ℚ) / 5) 1) ∧
      (Orch.clinicalSummaryFromFlat s).risk_level =
        (if 3 ≤ (Orch.clinicalSummaryFromFlat s).concerns.length then "High"
         else if 2 ≤ (Orch.clinicalSummaryFromFlat s).concerns.length then "Moderate"
         else "Low") ∧
      ("Reduced eye contact" ∈ (Orch.clinicalSummaryFromFlat s).concerns ↔
        (s.eye_contact_level = "very_low" ∨ s.eye_contact_level = "low")) ∧
      ("Reduced blink rate" ∈ (Orch.clinicalSummaryFromFlat s).concerns ↔
        s.blink_level = "low") ∧
      ("Restricted facial expressions" ∈ (Orch.clinicalSummaryFromFlat s).concerns ↔
        s.expression_level = "low") ∧
      ("Hand stimming detected" ∈ (Orch.clinicalSummaryFromFlat s).concerns ↔
        s.hand_stimming_present = true) ∧
      ("Head stimming detected" ∈ (Orch.clinicalSummaryFromFlat s).concerns ↔
        s.head_movements_repetitive = true) ∧
      ("Limited social gestures" ∈ (Orch.clinicalSummaryFromFlat s).concerns ↔
        s.social_gestures_present = false) := by
  intro s
  unfold Orch.clinicalSummaryFromFlat totalPossibleConcerns
  dsimp only
  by_cases h1 : s.eye_contact_level = "very_low" ∨ s.eye_contact_level = "low" <;>
  by_cases h2 : s.blink_level = "low" <;>
  by_cases h3 : s.expression_level = "low" <;>
  by_cases h4 : s.hand_stimming_present = true <;>
  by_cases h5 : s.head_movements_repetitive = true <;>
  by_cases h6 : s.social_gestures_present = true <;>
    simp [h1, h2, h3, h4, h5, h6] <;>
    norm_num [pyRound, roundHalfEven, h1, h2, h3, h4, h5, h6]

-- ===================================================================
-- C3: no per-detector exception isolation in process_frame
-- ===================================================================

/-- C3 (counterexample): on a fresh session, a frame whose eye-contact
extract call raises makes `process_frame` return that error and leaves every
other detector untouched — the blink detector (and all later ones) never see
the frame, although the identical frame with the eye call succeeding does
advance the blink detector's state. -/
theorem C3_counterexample :
    (Orch.processFrame zeroNorm (Orch.initState true) 5 orchInputEyeErr).1 =
      Except.error "detector failure" ∧
    (Orch.processFrame zeroNorm (Orch.initState true) 5 orchInputEyeErr).2.blink_rate =
      (Orch.initState true).blink_rate ∧
    (Orch.processFrame zeroNorm (Orch.initState true) 5 orchInputEyeErr).2.head_movement =
      (Orch.initState true).head_movement ∧
    (Orch.processFrame zeroNorm (Orch.initState true) 5 orchInputEyeErr).2.hand_repetition =
      (Orch.initState true).hand_repetition ∧
    (Orch.processFrame zeroNorm (Orch.initState true) 5 orchInputEyeErr).2.gesture_detection =
      (Orch.initState true).gesture_detection ∧
    (Orch.processFrame zeroNorm (Orch.initState true) 5 orchInputEyeErr).2.expression_variability =
      (Orch.initState true).expression_variability ∧
    (Orch.processFrame zeroNorm (Orch.initState true) 5 orchInputEyeErr).2.head_repetition =
      (Orch.initState true).head_repetition ∧
    (Orch.processFrame zeroNorm (Orch.initState true) 5 orchInputAllOk).2.blink_rate ≠
      (Orch.initState true).blink_rate := by
  refine ⟨rfl, rfl, rfl, rfl, rfl, rfl, rfl, ?_⟩
  simp [Orch.processFrame, Orch.initState, orchInputAllOk, orchInputEyeErr,
    Blink.extract, Blink.initState, HeadMove.extract, HeadMove.initState]

/-- C3 (amended): `process_frame` runs the detector calls sequentially with
no `try/except`: its result is a success exactly when the decode and all six
extract calls succeed, and when the first (eye-contact) call raises, the
exception propagates to the caller and none of the six remaining detectors
process the frame (their states are unchanged). -/
theorem C3_theorem :
    (∀ (norm : ℚ × ℚ → ℚ) (s : Orch.State) (t : ℚ) (input : Orch.FrameInput) (e : String),
      input.decode = Except.ok () → input.eye = Except.error e →
        (Orch.processFrame norm s t input).1 = Except.error e ∧
        (Orch.processFrame norm s t input).2.eye_contact = s.eye_contact ∧
        (Orch.processFrame norm s t input).2.blink_rate = s.blink_rate ∧
        (Orch.processFrame norm s t input).2.head_movement = s.head_movement ∧
        (Orch.processFrame norm s t input).2.head_repetition = s.head_repetition ∧
        (Orch.processFrame norm s t input).2.hand_repetition = s.hand_repetition ∧
        (Orch.processFrame norm s t input).2.gesture_detection = s.gesture_detection ∧
        (Orch.processFrame norm s t input).2.expression_variability = s.expression_variability) ∧
    (∀ (norm : ℚ × ℚ → ℚ) (s : Orch.State) (t : ℚ) (input : Orch.FrameInput),
      ((Orch.processFrame norm s t input).1).isOk =
        (input.decode.isOk && input.eye.isOk && input.blink.isOk && input.head.isOk &&
         input.hand.isOk && input.gesture.isOk && input.expression.isOk)) := by
  constructor
  · intro norm s t input e hd he
    obtain ⟨dec, eye, blink, head, hand, gesture, expression⟩ := input
    simp only at hd he
    subst hd he
    exact ⟨rfl, rfl, rfl, rfl, rfl, rfl, rfl, rfl⟩
  · intro norm s t input
    obtain ⟨dec, eye, blink, head, hand, gesture, expression⟩ := input
    cases dec <;> cases eye <;> cases blink <;> cases head <;> cases hand <;>
      cases gesture <;> cases expression <;> rfl

/-- C3 (witness): the amended statement applied to the concrete failing frame
input on a fresh session. -/
theorem C3_witness :
    (Orch.processFrame zeroNorm (Orch.initState true) 5 orchInputEyeErr).1 =
      Except.error "detector failure" ∧
    (Orch.processFrame zeroNorm (Orch.initState true) 5 orchInputEyeErr).2.blink_rate =
      (Orch.initState true).blink_rate :=
  ⟨(C3_theorem.1 zeroNorm (Orch.initState true) 5 orchInputEyeErr "detector failure"
      rfl rfl).1,
   (C3_theorem.1 zeroNorm (Orch.initState true) 5 orchInputEyeErr "detector failure"
      rfl rfl).2.2.1⟩

-- ===================================================================
-- C4: stimming confirmation flags are sticky until reset
-- ===================================================================

lemma HandRep.extract_sticky (s : HandRep.State) (t : ℚ) (obs : Option HandRep.PoseObs)
    (h : s.hand_stimming_confirmed = true) :
    ((HandRep.extract s t obs).1).hand_stimming_confirmed = true := by
  unfold HandRep.extract
  dsimp only
  split_ifs with h1
  · exact h
  · cases obs with
    | none => exact h
    | some o =>
      dsimp only
      cases hl : o.left_y <;> cases hr : o.right_y <;>
        simp only [hl, hr] <;> split_ifs <;> simp_all

lemma HandRep.run_sticky (frames : List (ℚ × Option HandRep.PoseObs)) :
    ∀ (s : HandRep.State), s.hand_stimming_confirmed = true →
      (HandRep.run s frames).hand_stimming_confirmed = true := by
  induction frames with
  | nil => intro s h; exact h
  | cons f rest ih =>
    intro s h
    exact ih _ (HandRep.extract_sticky s f.1 f.2 h)

lemma HeadRep.applyOp_sticky (s : HeadRep.State) (op : HeadRep.Op)
    (h : s.head_stimming_confirmed = true) :
    (HeadRep.applyOp s op).head_stimming_confirmed = true := by
  cases op with
  | add p t =>
    unfold HeadRep.applyOp HeadRep.addPosition
    dsimp only
    split_ifs <;> exact h
  | window =>
    unfold HeadRep.applyOp HeadRep.extractFromWindow
    dsimp only
    split_ifs <;> simp_all

lemma HeadRep.runOps_sticky (ops : List HeadRep.Op) :
    ∀ (s : HeadRep.State), s.head_stimming_confirmed = true →
      (HeadRep.runOps s ops).head_stimming_confirmed = true := by
  induction ops with
  | nil => intro s h; exact h
  | cons op rest ih =>
    intro s h
    exact ih _ (HeadRep.applyOp_sticky s op h)

/-- C4: once `hand_stimming_confirmed` (resp. `head_stimming_confirmed`) is
true, any further sequence of extract / add-position / window-evaluation
updates leaves it true — no update path ever clears the flag — and
`get_summary` then reports `detected = true`; only `reset` clears it. -/
theorem C4_theorem :
    (∀ (s : HandRep.State) (frames : List (ℚ × Option HandRep.PoseObs)),
      s.hand_stimming_confirmed = true →
        (HandRep.run s frames).hand_stimming_confirmed = true ∧
        (HandRep.getSummary (HandRep.run s frames)).detected = true) ∧
    (∀ (s : HeadRep.State) (ops : List HeadRep.Op),
      s.head_stimming_confirmed = true →
        (HeadRep.runOps s ops).head_stimming_confirmed = true ∧
        (HeadRep.getSummary (HeadRep.runOps s ops)).detected = true) ∧
    (HandRep.reset handConfirmedState).hand_stimming_confirmed = false ∧
    (HeadRep.reset headConfirmedState).head_stimming_confirmed = false := by
  refine ⟨?_, ?_, rfl, rfl⟩
  · intro s frames h
    have hrun := HandRep.run_sticky frames s h
    exact ⟨hrun, by simp [HandRep.getSummary, hrun]⟩
  · intro s ops h
    have hrun := HeadRep.runOps_sticky ops s h
    exact ⟨hrun, by simp [HeadRep.getSummary, hrun]⟩

/-- C4 (witness): the theorem applied to confirmed hand and head states with
a further non-qualifying update each. -/
theorem C4_witness :
    (HandRep.run handConfirmedState [(3, none)]).hand_stimming_confirmed = true ∧
    (HeadRep.runOps headConfirmedState [HeadRep.Op.window]).head_stimming_confirmed = true :=
  ⟨(C4_theorem.1 handConfirmedState [(3, none)] rfl).1,
   (C4_theorem.2.1 headConfirmedState [HeadRep.Op.window] rfl).1⟩

-- ===================================================================
-- C5: blink duration gating
-- ===================================================================

lemma Blink.extract_close (s : Blink.State) (t0 t l r : ℚ)
    (hstart : s.session_start_time = some t0)
    (hopen : s.eye_closed = false)
    (hear : (l + r) / 2 < Blink.EYE_CLOSED_EAR)
    (ht : t - t0 ≥ Blink.warmup_duration) :
    ((Blink.extract s t (some (l, r))).1).eye_closed = true ∧
    ((Blink.extract s t (some (l, r))).1).blink_start_time = some t ∧
    ((Blink.extract s t (some (l, r))).1).blink_timestamps = s.blink_timestamps ∧
    ((Blink.extract s t (some (l, r))).1).session_start_time = some t0 := by
  unfold Blink.extract
  rw [hstart]
  dsimp only [Option.getD]
  rw [if_neg (by unfold Blink.warmup_duration at ht ⊢; linarith)]
  rw [if_pos hear, if_pos (by simp [hopen])]
  exact ⟨rfl, rfl, rfl, rfl⟩

lemma Blink.extract_hold (s : Blink.State) (t0 t l r : ℚ)
    (hstart : s.session_start_time = some t0)
    (hclosed : s.eye_closed = true)
    (havg : (l + r) / 2 ≤ Blink.EYE_OPEN_EAR)
    (ht : t - t0 ≥ Blink.warmup_duration) :
    ((Blink.extract s t (some (l, r))).1).eye_closed = true ∧
    ((Blink.extract s t (some (l, r))).1).blink_start_time = s.blink_start_time ∧
    ((Blink.extract s t (some (l, r))).1).blink_timestamps = s.blink_timestamps ∧
    ((Blink.extract s t (some (l, r))).1).session_start_time = some t0 := by
  unfold Blink.extract
  rw [hstart]
  dsimp only [Option.getD]
  rw [if_neg (by unfold Blink.warmup_duration at ht ⊢; linarith)]
  by_cases hc : (l + r) / 2 < Blink.EYE_CLOSED_EAR
  · rw [if_pos hc, if_neg (by simp [hclosed])]
    exact ⟨hclosed, rfl, rfl, rfl⟩
  · rw [if_neg hc, if_neg ?hneg]
    · exact ⟨hclosed, rfl, rfl, rfl⟩
    case hneg =>
      rintro ⟨-, hgt⟩
      exact absurd havg (not_le.mpr hgt)

lemma Blink.run_hold (t0 : ℚ) (mids : List (ℚ × ℚ × ℚ)) :
    ∀ s : Blink.State, s.session_start_time = some t0 → s.eye_closed = true →
      (∀ m ∈ mids, (m.2.1 + m.2.2) / 2 ≤ Blink.EYE_OPEN_EAR ∧
        m.1 - t0 ≥ Blink.warmup_duration) →
      ((Blink.run s (mids.map (fun m => (m.1, some (m.2.1, m.2.2))))).eye_closed = true ∧
       (Blink.run s (mids.map (fun m => (m.1, some (m.2.1, m.2.2))))).blink_start_time =
         s.blink_start_time ∧
       (Blink.run s (mids.map (fun m => (m.1, some (m.2.1, m.2.2))))).blink_timestamps =
         s.blink_timestamps ∧
       (Blink.run s (mids.map (fun m => (m.1, some (m.2.1, m.2.2))))).session_start_time =
         some t0) := by
  induction mids with
  | nil => intro s h1 h2 _; exact ⟨h2, rfl, rfl, h1⟩
  | cons m rest ih =>
    intro s h1 h2 hm
    have hstep := Blink.extract_hold s t0 m.1 m.2.1 m.2.2 h1 h2
      (hm m (List.mem_cons_self m rest)).1 (hm m (List.mem_cons_self m rest)).2
    have hrest := ih ((Blink.extract s m.1 (some (m.2.1, m.2.2))).1)
      hstep.2.2.2 hstep.1 (fun x hx => hm x (List.mem_cons_of_mem m hx))
    simp only [List.map_cons, Blink.run, List.foldl_cons] at *
    exact ⟨hrest.1, hrest.2.1.trans hstep.2.1, hrest.2.2.1.trans hstep.2.2.1, hrest.2.2.2⟩

lemma Blink.extract_reopen (s : Blink.State) (t0 tc t l r : ℚ)
    (hstart : s.session_start_time = some t0)
    (hclosed : s.eye_closed = true)
    (hbs : s.blink_start_time = some tc)
    (hear : (l + r) / 2 > Blink.EYE_OPEN_EAR)
    (ht : t - t0 ≥ Blink.warmup_duration) :
    ((Blink.extract s t (some (l, r))).1).blink_timestamps =
      s.blink_timestamps ++
        (if Blink.MIN_BLINK_DURATION ≤ t - tc ∧ t - tc ≤ Blink.MAX_BLINK_DURATION
         then [t] else []) ∧
    ((Blink.extract s t (some (l, r))).1).eye_closed = false := by
  unfold Blink.extract
  rw [hstart]
  dsimp only [Option.getD]
  rw [if_neg (by unfold Blink.warmup_duration at ht ⊢; linarith)]
  rw [if_neg (by unfold Blink.EYE_CLOSED_EAR; unfold Blink.EYE_OPEN_EAR at hear; linarith)]
  rw [if_pos (by exact ⟨by simp [hclosed], hear⟩)]
  rw [hbs]
  dsimp only
  split_ifs with hd
  · exact ⟨rfl, rfl⟩
  · simp

/-- C5: after warm-up, a closure event (EAR drops below the closed threshold
at `t_close`, stays at or below the open threshold through any intermediate
frames, and rises above the open threshold at `t_open`) appends exactly one
blink timestamp iff `MIN_BLINK_DURATION ≤ t_open − t_close ≤
MAX_BLINK_DURATION`; concretely, a closure of exactly 50 ms is not counted,
one of 100 ms is counted as exactly one blink, and one of 500 ms is not
counted. -/
theorem C5_theorem :
    (∀ (s : Blink.State) (t0 t_close t_open l1 r1 l2 r2 : ℚ) (mids : List (ℚ × ℚ × ℚ)),
      s.session_start_time = some t0 →
      s.eye_closed = false →
      (l1 + r1) / 2 < Blink.EYE_CLOSED_EAR →
      t_close - t0 ≥ Blink.warmup_duration →
      (∀ m ∈ mids, (m.2.1 + m.2.2) / 2 ≤ Blink.EYE_OPEN_EAR ∧
        m.1 - t0 ≥ Blink.warmup_duration) →
      (l2 + r2) / 2 > Blink.EYE_OPEN_EAR →
      t_open - t0 ≥ Blink.warmup_duration →
      (Blink.run s ((t_close, some (l1, r1)) ::
          (mids.map (fun m => (m.1, some (m.2.1, m.2.2))) ++
            [(t_open, some (l2, r2))]))).blink_timestamps =
        s.blink_timestamps ++
          (if Blink.MIN_BLINK_DURATION ≤ t_open - t_close ∧
              t_open - t_close ≤ Blink.MAX_BLINK_DURATION
           then [t_open] else [])) ∧
    (blinkClosureRun (5/100)).blink_timestamps.length = 0 ∧
    (blinkClosureRun (1/10)).blink_timestamps.length = 1 ∧
    (blinkClosureRun (1/2)).blink_timestamps.length = 0 := by
  refine ⟨?_, ?_, ?_, ?_⟩
  · intro s t0 t_close t_open l1 r1 l2 r2 mids hstart hopen hear1 ht1 hmids hear2 ht2
    have h1 := Blink.extract_close s t0 t_close l1 r1 hstart hopen hear1 ht1
    have h2 := Blink.run_hold t0 mids ((Blink.extract s t_close (some (l1, r1))).1)
      h1.2.2.2 h1.1 hmids
    have h3 := Blink.extract_reopen
      (Blink.run ((Blink.extract s t_close (some (l1, r1))).1)
        (mids.map (fun m => (m.1, some (m.2.1, m.2.2)))))
      t0 t_close t_open l2 r2 h2.2.2.2 h2.1 (h2.2.1.trans h1.2.1) hear2 ht2
    simp only [Blink.run, List.foldl_cons, List.foldl_append, List.foldl_nil] at h1 h2 h3 ⊢
    rw [h3.1, h2.2.2.1, h1.2.2.1]
  all_goals
    norm_num [blinkClosureRun, Blink.run, Blink.extract, blinkOpenEars, blinkClosedEars,
      Blink.EYE_CLOSED_EAR, Blink.EYE_OPEN_EAR, Blink.MIN_BLINK_DURATION,
      Blink.MAX_BLINK_DURATION, Blink.warmup_duration, Blink.initState]

lemma c5wClose : ((1:ℚ)/10 + 1/10) / 2 < Blink.EYE_CLOSED_EAR := by
  norm_num [Blink.EYE_CLOSED_EAR]

lemma c5wOpen : ((3:ℚ)/10 + 3/10) / 2 > Blink.EYE_OPEN_EAR := by
  norm_num [Blink.EYE_OPEN_EAR]

lemma c5wWarm1 : (3:ℚ) - 0 ≥ Blink.warmup_duration := by
  norm_num [Blink.warmup_duration]

lemma c5wWarm2 : (31:ℚ)/10 - 0 ≥ Blink.warmup_duration := by
  norm_num [Blink.warmup_duration]

lemma c5wBounds : Blink.MIN_BLINK_DURATION ≤ (31:ℚ)/10 - 3 ∧
    (31:ℚ)/10 - 3 ≤ Blink.MAX_BLINK_DURATION := by
  norm_num [Blink.MIN_BLINK_DURATION, Blink.MAX_BLINK_DURATION]

/-- C5 (witness): the gating statement applied to a concrete 100 ms closure
after warm-up, yielding exactly one appended blink timestamp. -/
theorem C5_witness :
    (Blink.run blinkReadyState
      [(3, some (1/10, 1/10)), (31/10, some (3/10, 3/10))]).blink_timestamps = [31/10] := by
  have h := C5_theorem.1 blinkReadyState 0 3 (31/10) (1/10) (1/10) (3/10) (3/10) []
    rfl rfl c5wClose c5wWarm1 (by simp) c5wOpen c5wWarm2
  rw [if_pos c5wBounds] at h
  simpa using h

-- ===================================================================
-- C6: head vs hand oscillation-counting patterns
-- ===================================================================

/-- C6 (counterexample): the hand counter does not implement the claimed
pattern: on `handDriftWindow` (drift ratio 1, beyond the configured 0.65
bound) it still reports 6 oscillations where the claimed pattern reports 0;
and on `tinyStepWindow`, whose backward steps are all below the configured
minimum-step threshold, it reports 6 where the step-ignoring reversal count
(the head detector's counter, as the claim describes) reports 0. -/
theorem C6_counterexample :
    HandRep.countOscillations handDriftWindow (7/5) = 6 ∧
    driftRatio (handDriftWindow.map (fun p => p.2)) > HeadRep.MAX_DRIFT_RATIO ∧
    handCountOscillationsSpec handDriftWindow (7/5) = 0 ∧
    HandRep.countOscillations tinyStepWindow (7/5) = 6 ∧
    HeadRep.countOscillations tinyStepYs = 0 ∧
    handCountOscillationsSpec tinyStepWindow (7/5) = 0 := by
  refine ⟨?_, ?_, ?_, ?_, ?_, ?_⟩ <;>
    norm_num [HandRep.countOscillations, handCountOscillationsSpec, HeadRep.countOscillations,
      handDriftWindow, tinyStepWindow, tinyStepYs, driftRatio, listMax, listMin, listLast,
      listDiffs, qsign, HandRep.TIME_WINDOW, HandRep.MIN_AMPLITUDE, HandRep.MAX_AMPLITUDE,
      HeadRep.MAX_DRIFT_RATIO, HeadRep.MIN_SPEED, List.filter, List.countP, List.countP.go,
      List.zipWith, List.range, List.range.loop, abs_lt, abs_eq_max_neg]

/-- C6 (amended): the two detectors share the amplitude-gating part of the
pattern — the hand counter reports 0 whenever its trailing window's amplitude
is outside [MIN_AMPLITUDE, MAX_AMPLITUDE], and the head detector reports 0
oscillations whenever the drift ratio exceeds MAX_DRIFT_RATIO — but only the
head counter ignores near-zero steps below MIN_SPEED and rejects drifting
windows; the hand counter counts raw consecutive sign changes with no
minimum-step filter and no drift-ratio rejection (see the counterexample). -/
theorem C6_theorem :
    (∀ (positions : List (ℚ × ℚ)) (now : ℚ),
      (listMax (((positions.filter (fun p => p.1 ≥ now - HandRep.TIME_WINDOW)).map
          (fun p => p.2))) -
       listMin (((positions.filter (fun p => p.1 ≥ now - HandRep.TIME_WINDOW)).map
          (fun p => p.2))) < HandRep.MIN_AMPLITUDE ∨
       listMax (((positions.filter (fun p => p.1 ≥ now - HandRep.TIME_WINDOW)).map
          (fun p => p.2))) -
       listMin (((positions.filter (fun p => p.1 ≥ now - HandRep.TIME_WINDOW)).map
          (fun p => p.2))) > HandRep.MAX_AMPLITUDE) →
      HandRep.countOscillations positions now = 0) ∧
    (∀ (s : HeadRep.State) (axis : Fin 2),
      driftRatio (s.head_positions.map
        (fun p => if axis = (0 : Fin 2) then p.2.1 else p.2.2)) > HeadRep.MAX_DRIFT_RATIO →
      HeadRep.detectOscillation s axis = 0) := by
  constructor
  · intro positions now h
    unfold HandRep.countOscillations
    dsimp only
    by_cases h1 : (positions.filter (fun p => p.1 ≥ now - HandRep.TIME_WINDOW)).length < 8
    · rw [if_pos h1]
    · rw [if_neg h1, if_pos h]
  · intro s axis h
    unfold HeadRep.detectOscillation
    unfold driftRatio at h
    dsimp only
    by_cases h1 : s.head_positions.length < 6
    · rw [if_pos h1]
    · rw [if_neg h1]
      by_cases h2 : listMax (s.head_positions.map
          (fun p => if axis = (0 : Fin 2) then p.2.1 else p.2.2)) -
          listMin (s.head_positions.map
          (fun p => if axis = (0 : Fin 2) then p.2.1 else p.2.2)) < HeadRep.MIN_AMPLITUDE
      · rw [if_pos h2]
      · rw [if_neg h2, if_pos h]

lemma c6wAmp :
    listMax (((tinyAmpWindow.filter (fun p => p.1 ≥ 1 - HandRep.TIME_WINDOW)).map
        (fun p => p.2))) -
    listMin (((tinyAmpWindow.filter (fun p => p.1 ≥ 1 - HandRep.TIME_WINDOW)).map
        (fun p => p.2))) < HandRep.MIN_AMPLITUDE ∨
    listMax (((tinyAmpWindow.filter (fun p => p.1 ≥ 1 - HandRep.TIME_WINDOW)).map
        (fun p => p.2))) -
    listMin (((tinyAmpWindow.filter (fun p => p.1 ≥ 1 - HandRep.TIME_WINDOW)).map
        (fun p => p.2))) > HandRep.MAX_AMPLITUDE := by
  left
  norm_num [tinyAmpWindow, listMax, listMin, List.filter, HandRep.TIME_WINDOW,
    HandRep.MIN_AMPLITUDE]

lemma c6wDrift :
    driftRatio (headDriftState.head_positions.map
      (fun p => if (0 : Fin 2) = (0 : Fin 2) then p.2.1 else p.2.2)) >
      HeadRep.MAX_DRIFT_RATIO := by
  norm_num [headDriftState, driftRatio, listMax, listMin, listLast,
    HeadRep.MAX_DRIFT_RATIO, abs_eq_max_neg]

/-- C6 (witness): the amended statement applied to a below-amplitude wrist
window and to a drifting head buffer. -/
theorem C6_witness :
    HandRep.countOscillations tinyAmpWindow 1 = 0 ∧
    HeadRep.detectOscillation headDriftState 0 = 0 :=
  ⟨C6_theorem.1 tinyAmpWindow 1 c6wAmp, C6_theorem.2 headDriftState 0 c6wDrift⟩

-- ===================================================================
-- C7: emotion-classifier failure handling
-- ===================================================================

lemma Expr.extract_failing (s : Expr.State) (t : ℚ) (obs : Expr.Obs)
    (h : Expr.failingObs obs) :
    ((Expr.extract s t obs).1).emotion_history = s.emotion_history := by
  unfold Expr.extract
  dsimp only
  split_ifs <;> try rfl
  cases ho : obs.outcome with
  | response status dom =>
    unfold Expr.failingObs at h
    rw [ho] at h
    simp only [ho]
    rw [if_neg h]
  | timeout => simp only [ho]
  | exc c =>
    simp only [ho]
    split_ifs <;> rfl

lemma Expr.run_failing (frames : List (ℚ × Expr.Obs)) :
    ∀ s : Expr.State, (∀ f ∈ frames, Expr.failingObs f.2) →
      (Expr.run s frames).emotion_history = s.emotion_history := by
  induction frames with
  | nil => intro s _; rfl
  | cons f rest ih =>
    intro s hf
    have h1 := Expr.extract_failing s f.1 f.2 (hf f (List.mem_cons_self f rest))
    have h2 := ih ((Expr.extract s f.1 f.2).1) (fun x hx => hf x (List.mem_cons_of_mem f hx))
    simp only [Expr.run, List.foldl_cons] at *
    exact h2.trans h1

/-- C7: the expression detector degrades gracefully — its extract step is a
total function of the collaborator outcome (the source catches every
exception, so nothing propagates to the caller): a timeout or a non-200
response leaves the history and the availability flag unchanged (the next
sample is still attempted); once `deepface_available` is false it stays false
and no further call can append anything; a connection-class exception raised
by an actually attempted call turns the flag off; and when every sampled call
in a session fails, the history stays empty and `get_summary` reports the
`insufficient_data` level (fewer than 20 samples). -/
theorem C7_theorem :
    (∀ (s : Expr.State) (t : ℚ) (obs : Expr.Obs),
      obs.outcome = Expr.CallOutcome.timeout →
        ((Expr.extract s t obs).1).emotion_history = s.emotion_history ∧
        ((Expr.extract s t obs).1).deepface_available = s.deepface_available) ∧
    (∀ (s : Expr.State) (t : ℚ) (obs : Expr.Obs) (status : ℕ) (dom : Option String),
      obs.outcome = Expr.CallOutcome.response status dom → status ≠ 200 →
        ((Expr.extract s t obs).1).emotion_history = s.emotion_history ∧
        ((Expr.extract s t obs).1).deepface_available = s.deepface_available) ∧
    (∀ (s : Expr.State) (t : ℚ) (obs : Expr.Obs),
      s.deepface_available = false →
        ((Expr.extract s t obs).1).deepface_available = false ∧
        ((Expr.extract s t obs).1).emotion_history = s.emotion_history) ∧
    (∀ (s : Expr.State) (t : ℚ) (obs : Expr.Obs),
      s.deepface_available = true → obs.frame_none = false → obs.face_detected = true →
      t - (s.session_start_time.getD t) ≥ Expr.warmup_duration →
      (s.total_frames_processed + 1) % 10 = 0 →
      obs.outcome = Expr.CallOutcome.exc true →
        ((Expr.extract s t obs).1).deepface_available = false) ∧
    (∀ (log2 : ℚ → ℚ) (avail : Bool) (frames : List (ℚ × Expr.Obs)),
      (∀ f ∈ frames, Expr.failingObs f.2) →
        (Expr.run (Expr.initState avail) frames).emotion_history = [] ∧
        (Expr.getSummary log2 (Expr.run (Expr.initState avail) frames)).level =
          "insufficient_data") := by
  refine ⟨?_, ?_, ?_, ?_, ?_⟩
  · intro s t obs ho
    constructor
    · exact Expr.extract_failing s t obs (by unfold Expr.failingObs; rw [ho]; trivial)
    · unfold Expr.extract
      dsimp only
      split_ifs <;> try rfl
      simp only [ho]
  · intro s t obs status dom ho hs
    constructor
    · exact Expr.extract_failing s t obs (by unfold Expr.failingObs; rw [ho]; exact hs)
    · unfold Expr.extract
      dsimp only
      split_ifs <;> try rfl
      simp only [ho]
      rw [if_neg hs]
  · intro s t obs h
    unfold Expr.extract
    dsimp only
    have hcond : (!s.deepface_available ∨ (s.total_frames_processed + 1) % 10 ≠ 0) := by
      left
      simp [h]
    split_ifs <;> simp_all
  · intro s t obs h1 h2 h3 h4 h5 h6
    unfold Expr.extract
    dsimp only
    rw [if_neg (by simp [h2]), if_neg (by simp [h3]),
      if_neg (by unfold Expr.warmup_duration at h4 ⊢; intro hlt; linarith),
      if_neg (by simp [h1, h5]), h6]
    simp
  · intro log2 avail frames hf
    have hrun := Expr.run_failing frames (Expr.initState avail) hf
    refine ⟨hrun, ?_⟩
    unfold Expr.getSummary
    rw [if_pos (by rw [hrun]; simp [Expr.initState])]

lemma c7wFailing : ∀ f ∈ exprTimeoutFrames, Expr.failingObs f.2 := by
  intro f hf
  simp only [exprTimeoutFrames, List.mem_map] at hf
  obtain ⟨i, _, rfl⟩ := hf
  unfold Expr.failingObs
  trivial

/-- C7 (witness): the theorem applied to a 25-frame session whose every
sampled classifier call times out. -/
theorem C7_witness :
    (Expr.run (Expr.initState true) exprTimeoutFrames).emotion_history = [] ∧
    (Expr.getSummary id (Expr.run (Expr.initState true) exprTimeoutFrames)).level =
      "insufficient_data" :=
  C7_theorem.2.2.2.2 id true exprTimeoutFrames c7wFailing

-- ===================================================================
-- C8: calling get_session_summary twice yields identical summaries
-- ===================================================================

/-- C8: `get_session_summary` only mutates the eye-contact detector (closing
any open dwell with a zero-length segment that is never retained), so calling
it twice with the same duration and no intervening frames returns identical
session summaries — every feature value, level, interpretation, concern list
and risk label agrees between the two calls. -/
theorem C8_theorem :
    ∀ (norm : ℚ × ℚ → ℚ) (log2 : ℚ → ℚ) (s : Orch.State) (d : ℚ),
      (Orch.getSessionSummary norm log2 ((Orch.getSessionSummary norm log2 s d).2) d).1 =
        (Orch.getSessionSummary norm log2 s d).1 := by
  intro norm log2 s d
  unfold Orch.getSessionSummary
  dsimp only
  rw [EyeContact.getSummary_snd]
  rw [← EyeContact.getSummary_fst_none]

-- ===================================================================
-- C9: buffer trimming and the unbounded head-movement history
-- ===================================================================

/-- C9 (counterexample): the head-movement position history is never
evicted: after updates at t = 10 and t = 1000 the sample recorded at t = 10
is still buffered, although it is 990 seconds old — far beyond the 2.5-second
trailing window the repetition detectors use and beyond any configured window
of the head-movement detector, which has none. -/
theorem C9_counterexample :
    hmLongRun.head_pose_history.map (fun p => p.1) = [10, 1000] ∧
    (1000 : ℚ) - 10 > HeadRep.TIME_WINDOW + 1/2 ∧
    (1000 : ℚ) - 10 > HeadMove.warmup_duration := by
  refine ⟨?_, by norm_num [HeadRep.TIME_WINDOW], by norm_num [HeadMove.warmup_duration]⟩
  norm_num [hmLongRun, HeadMove.run, HeadMove.extract, hmObs, HeadMove.initState,
    HeadMove.warmup_duration]

/-- C9 (amended): the hand-repetition and head-repetition detectors trim
their position buffers on every post-warm-up tracked update to the trailing
`TIME_WINDOW + 0.5` seconds, so those buffers' time span stays bounded; the
head-movement history, by contrast, is append-only — an update either leaves
it unchanged or appends one sample, and nothing is ever evicted, so it
accumulates samples indefinitely. -/
theorem C9_theorem :
    (∀ (s : HandRep.State) (t : ℚ) (o : HandRep.PoseObs),
      t - (s.session_start_time.getD t) ≥ HandRep.WARM_UP_PERIOD →
        (∀ p ∈ ((HandRep.extract s t (some o)).1).left_positions,
          p.1 ≥ t - (HandRep.TIME_WINDOW + 1/2)) ∧
        (∀ p ∈ ((HandRep.extract s t (some o)).1).right_positions,
          p.1 ≥ t - (HandRep.TIME_WINDOW + 1/2))) ∧
    (∀ (s : HeadRep.State) (pos : ℚ × ℚ) (t : ℚ),
      t - (s.session_start_time.getD t) ≥ HeadRep.WARM_UP_PERIOD →
        ∀ p ∈ (HeadRep.addPosition s pos t).head_positions,
          p.1 ≥ t - (HeadRep.TIME_WINDOW + 1/2)) ∧
    (∀ (s : HeadMove.State) (t : ℚ) (obs : Option HeadMove.Obs),
      ((HeadMove.extract s t obs).1).head_pose_history = s.head_pose_history ∨
      ∃ x, ((HeadMove.extract s t obs).1).head_pose_history = s.head_pose_history ++ [x]) := by
  refine ⟨?_, ?_, ?_⟩
  · intro s t o hwarm
    unfold HandRep.extract
    dsimp only
    rw [if_neg (by unfold HandRep.WARM_UP_PERIOD at hwarm ⊢; intro hlt; linarith)]
    cases hl : o.left_y <;> cases hr : o.right_y <;> simp only [hl, hr] <;>
      constructor <;> intro p hp <;> split_ifs at hp <;>
      simp only [List.mem_filter, decide_eq_true_eq] at hp <;> exact hp.2
  · intro s pos t hwarm
    unfold HeadRep.addPosition
    dsimp only
    rw [if_neg (by unfold HeadRep.WARM_UP_PERIOD at hwarm ⊢; intro hlt; linarith)]
    intro p hp
    simp only [List.mem_filter, decide_eq_true_eq] at hp
    exact hp.2
  · intro s t obs
    unfold HeadMove.extract
    cases obs with
    | none => left; rfl
    | some o =>
      dsimp only
      split_ifs
      · right; exact ⟨_, rfl⟩
      · left; rfl

lemma c9wWarmHand : (5 : ℚ) - (handConfirmedState.session_start_time.getD 5) ≥
    HandRep.WARM_UP_PERIOD := by
  norm_num [handConfirmedState, HandRep.WARM_UP_PERIOD]

lemma c9wMemHand : ((5 : ℚ), (1/2 : ℚ)) ∈
    ((HandRep.extract handConfirmedState 5
      (some { left_y := some (1/2), right_y := none })).1).left_positions := by
  norm_num [HandRep.extract, handConfirmedState, HandRep.WARM_UP_PERIOD,
    HandRep.TIME_WINDOW, HandRep.MIN_OSCILLATIONS, HandRep.CONFIRM_WINDOWS,
    HandRep.countOscillations, List.filter]

lemma c9wWarmHead : (3 : ℚ) - (headConfirmedState.session_start_time.getD 3) ≥
    HeadRep.WARM_UP_PERIOD := by
  norm_num [headConfirmedState, HeadRep.WARM_UP_PERIOD]

lemma c9wMemHead : ((3 : ℚ), ((1/2 : ℚ), (1/2 : ℚ))) ∈
    (HeadRep.addPosition headConfirmedState (1/2, 1/2) 3).head_positions := by
  norm_num [HeadRep.addPosition, headConfirmedState, HeadRep.WARM_UP_PERIOD,
    HeadRep.TIME_WINDOW, List.filter]

/-- C9 (witness): the amended statement applied to concrete post-warm-up
updates of the hand- and head-repetition buffers. -/
theorem C9_witness :
    ((5 : ℚ) ≥ 5 - (HandRep.TIME_WINDOW + 1/2)) ∧
    ((3 : ℚ) ≥ 3 - (HeadRep.TIME_WINDOW + 1/2)) :=
  ⟨(C9_theorem.1 handConfirmedState 5 { left_y := some (1/2), right_y := none }
      c9wWarmHand).1 (5, 1/2) c9wMemHand,
   C9_theorem.2.1 headConfirmedState (1/2, 1/2) 3 c9wWarmHead (3, (1/2, 1/2)) c9wMemHead⟩

-- ===================================================================
-- C10: an open dwell is closed at its own start time and never retained
-- ===================================================================

/-- C10: when `get_summary` runs with a dwell still open, it closes the
segment using the segment's own start time as the end time; the zero-duration
segment is below `MIN_EYE_CONTACT_DURATION`, so the retained-segment list is
unchanged and the whole summary equals the summary of the same state with the
open dwell discarded — the in-progress contact contributes nothing to the
ratio regardless of its actual length. -/
theorem C10_theorem :
    ∀ (s : EyeContact.State) (c : ℚ), s.current_contact_start = some c →
      (EyeContact.endEyeContact s c).eye_contact_segments = s.eye_contact_segments ∧
      ((EyeContact.getSummary s).2).eye_contact_segments = s.eye_contact_segments ∧
      (EyeContact.getSummary s).1 =
        (EyeContact.getSummary { s with current_contact_start := none }).1 := by
  intro s c h
  refine ⟨?_, ?_, EyeContact.getSummary_fst_none s⟩
  · rw [EyeContact.endEyeContact_zero s c h]
  · rw [EyeContact.getSummary_snd]

/-- C10 (witness): the theorem applied to a state whose dwell opened at
t = 3. -/
theorem C10_witness :
    (EyeContact.endEyeContact eyeOpenDwellState 3).eye_contact_segments =
      eyeOpenDwellState.eye_contact_segments ∧
    ((EyeContact.getSummary eyeOpenDwellState).2).eye_contact_segments =
      eyeOpenDwellState.eye_contact_segments ∧
    (EyeContact.getSummary eyeOpenDwellState).1 =
      (EyeContact.getSummary { eyeOpenDwellState with current_contact_start := none }).1 :=
  C10_theorem eyeOpenDwellState 3 rfl

end Autisense
